import Mathlib

/-! # BMP180 driver (BMP180.c / BMP180.h): embedding and verification

The driver is embedded as pure functions that pass the device structure and the
bus explicitly.  The STM32 HAL (`HAL_I2C_Mem_Read`, `HAL_I2C_Mem_Write`,
`HAL_Delay`) is the external transport: it is modelled as a `Bus` whose answer
to an operation may depend on the whole history of operations, and which
records every operation in a trace.

C integers are `Int`/`Nat` with explicit reduction: `wrap32` is the conversion
to `int32_t` (two's complement, which is also what the Cortex-M3 target does on
signed overflow), `toU32` the conversion to `uint32_t`.  Signed `/` is
`Int.tdiv` (truncation toward zero), signed `>>` is the arithmetic shift
`Int.shiftRight`.  The two `float` fields are kept as the expression that
produced them (`FloatVal`).
-/

namespace Bmp180Driver

/-! ## Machine arithmetic -/

/-- Conversion to `int32_t`: the value modulo 2^32 in the range -2^31 .. 2^31 - 1. -/
def wrap32 (x : Int) : Int := (x + 2147483648) % 4294967296 - 2147483648

/-- Conversion to `uint32_t`: the value modulo 2^32. -/
def toU32 (x : Int) : Int := x % 4294967296

/-- Conversion to `int16_t`. -/
def wrap16 (x : Int) : Int := (x + 32768) % 65536 - 32768

/-- Conversion to `uint16_t`. -/
def toU16 (x : Int) : Int := x % 65536

/-- Signed 32-bit `x << n` (the `int` shift count taken as a natural number). -/
def shl32 (x : Int) (n : Int) : Int := wrap32 (x * 2 ^ n.toNat)

/-- Signed 32-bit `x >> n`, arithmetic. -/
def sar32 (x : Int) (n : Int) : Int := Int.shiftRight x n.toNat

/-! ## HAL types and the transport -/

/-- The HAL status enumeration (`stm32f1xx_hal_def.h`). -/
inductive HAL_StatusTypeDef where
  | HAL_OK
  | HAL_ERROR
  | HAL_BUSY
  | HAL_TIMEOUT
  deriving DecidableEq, Repr

open HAL_StatusTypeDef

/-- One call into the HAL: a register read of `size` bytes, a one-byte register
write, or a blocking delay. -/
inductive BusOp where
  | MemRead (hi2c devAddr reg size : Nat)
  | MemWrite (hi2c devAddr reg data : Nat)
  | Delay (ms : Nat)
  deriving DecidableEq, Repr

/-- What the HAL answers: a status and, for a read, the bytes put in the buffer. -/
structure Response where
  status : HAL_StatusTypeDef
  data : Nat → Nat

/-- The transport: its answer to an operation given all earlier operations, and
the operations performed so far (oldest first). -/
structure Bus where
  respond : List BusOp → BusOp → Response
  trace : List BusOp

/-- Perform one operation: the answer, and the bus with the operation recorded. -/
def Bus.exec (bus : Bus) (op : BusOp) : Response × Bus :=
  (bus.respond bus.trace op, { bus with trace := bus.trace ++ [op] })

/-- The `uint8_t` at index `i` of the buffer filled by a read. -/
def Response.byte (r : Response) (i : Nat) : Nat := r.data i % 256

/-- `HAL_Delay(ms)`. -/
def HAL_Delay (bus : Bus) (ms : Nat) : Bus := (bus.exec (BusOp.Delay ms)).2

/-! ## Constants of BMP180.h -/

def BMP180_I2C_ADDR : Nat := 0xEE
def BMP180_DEVICE_ID : Nat := 0x55
def PRESSURE_SEA_LEVEL_PA : Nat := 101325
def BMP180_REG_OUT_XLSB : Nat := 0xF8
def BMP180_REG_OUT_LSB : Nat := 0xF7
def BMP180_REG_OUT_MSB : Nat := 0xF6
def BMP180_REG_CTRL_MEAS : Nat := 0xF4
def BMP180_REG_ID : Nat := 0xD0
def BMP180_REG_CALIB_0 : Nat := 0xAA

/-- The `CONTROL_REGISTER` enumeration. -/
inductive CONTROL_REGISTER where
  | CTRL_REG_TEMPERATURE
  | CTRL_REG_PRESSURE_OSS_0
  | CTRL_REG_PRESSURE_OSS_1
  | CTRL_REG_PRESSURE_OSS_2
  | CTRL_REG_PRESSURE_OSS_3
  deriving DecidableEq, Repr

open CONTROL_REGISTER

/-- The enumerator values. -/
def CONTROL_REGISTER.val : CONTROL_REGISTER → Nat
  | CTRL_REG_TEMPERATURE => 0x2E
  | CTRL_REG_PRESSURE_OSS_0 => 0x34
  | CTRL_REG_PRESSURE_OSS_1 => 0x74
  | CTRL_REG_PRESSURE_OSS_2 => 0xB4
  | CTRL_REG_PRESSURE_OSS_3 => 0xF4

/-! ## Device structure -/

/-- The calibration coefficients; `AC4`, `AC5`, `AC6` are `uint16_t`, the others
`int16_t`. -/
structure CALIBRATION_DATA where
  AC1 : Int
  AC2 : Int
  AC3 : Int
  AC4 : Int
  AC5 : Int
  AC6 : Int
  B1 : Int
  B2 : Int
  MB : Int
  MC : Int
  MD : Int
  deriving DecidableEq, Repr

/-- A value of a `float` field, kept as the expression that produced it:
`bits w` is a float the driver did not compute (whatever the structure held),
`zero` is `0.0f`, `tenths T` is `(float)T / 10.0f`, and `elev p` is
`44330 * (1 - pow((float)p / (float)PRESSURE_SEA_LEVEL_PA, 0.19029495718))`. -/
inductive FloatVal where
  | bits (w : Nat)
  | zero
  | tenths (T : Int)
  | elev (p : Int)
  deriving DecidableEq, Repr

/-- The `BMP180` device structure. -/
structure BMP180 where
  hi2c : Nat
  device_id_status : HAL_StatusTypeDef
  OSS : Int
  B5 : Int
  raw_pressure : Int
  raw_temperature : Int
  pressure_Pa : Int
  temp_C : FloatVal
  elevation_M : FloatVal
  calibration_data : CALIBRATION_DATA
  deriving DecidableEq, Repr

/-! ## Register access (BMP180.c lines 197-207) -/

/-- `BMP180_ReadReg`: status, the byte read, and the bus afterwards. -/
def BMP180_ReadReg (device : BMP180) (bus : Bus) (reg_addr : Nat) :
    HAL_StatusTypeDef × Nat × Bus :=
  let r := bus.exec (BusOp.MemRead device.hi2c BMP180_I2C_ADDR reg_addr 1)
  (r.1.status, r.1.byte 0, r.2)

/-- `BMP180_ReadRegs`: status, the buffer read, and the bus afterwards. -/
def BMP180_ReadRegs (device : BMP180) (bus : Bus) (reg_addr : Nat) (size : Nat) :
    HAL_StatusTypeDef × (Nat → Nat) × Bus :=
  let r := bus.exec (BusOp.MemRead device.hi2c BMP180_I2C_ADDR reg_addr size)
  (r.1.status, r.1.byte, r.2)

/-- `BMP180_WriteReg`. -/
def BMP180_WriteReg (device : BMP180) (bus : Bus) (reg_addr : Nat) (data : Nat) :
    HAL_StatusTypeDef × Bus :=
  let r := bus.exec (BusOp.MemWrite device.hi2c BMP180_I2C_ADDR reg_addr data)
  (r.1.status, r.2)

/-! ## Calibration load (BMP180.c lines 35-52) -/

/-- The store `*(ptr + i) = w` through the `int16_t *` that aliases the
calibration structure: slot `i` receives the low 16 bits of `w`, which the
field's declared type then reads as signed or unsigned. -/
def storeCalibSlot (cd : CALIBRATION_DATA) (i : Nat) (w : Int) : CALIBRATION_DATA :=
  match i with
  | 0 => { cd with AC1 := wrap16 w }
  | 1 => { cd with AC2 := wrap16 w }
  | 2 => { cd with AC3 := wrap16 w }
  | 3 => { cd with AC4 := toU16 w }
  | 4 => { cd with AC5 := toU16 w }
  | 5 => { cd with AC6 := toU16 w }
  | 6 => { cd with B1 := wrap16 w }
  | 7 => { cd with B2 := wrap16 w }
  | 8 => { cd with MB := wrap16 w }
  | 9 => { cd with MC := wrap16 w }
  | 10 => { cd with MD := wrap16 w }
  | _ => cd

/-- The loop `for (i = 0; i < 11; i++) *(ptr + i) = (raw[2*i] << 8) | raw[2*i + 1];`. -/
def calibLoop (raw : Nat → Nat) (cd : CALIBRATION_DATA) : CALIBRATION_DATA :=
  (List.range 11).foldl
    (fun acc i => storeCalibSlot acc i (((raw (2 * i) <<< 8) ||| raw (2 * i + 1) : Nat) : Int)) cd

/-- `BMP180_Read_Calibration_Data`. -/
def BMP180_Read_Calibration_Data (device : BMP180) (bus : Bus) :
    HAL_StatusTypeDef × BMP180 × Bus :=
  let r := BMP180_ReadRegs device bus BMP180_REG_CALIB_0 22
  if r.1 ≠ HAL_OK then (r.1, device, r.2.2)
  else
    (r.1, { device with calibration_data := calibLoop r.2.1 device.calibration_data }, r.2.2)

/-! ## Initialisation (BMP180.c lines 13-33) -/

/-- `BMP180_Init`: the error code, the device and the bus afterwards. -/
def BMP180_Init (device : BMP180) (bus : Bus) (hi2c : Nat) : Nat × BMP180 × Bus :=
  let device1 := { device with hi2c := hi2c, temp_C := FloatVal.zero }
  let r := BMP180_ReadReg device1 bus BMP180_REG_ID
  let device2 := { device1 with device_id_status := r.1 }
  if r.1 ≠ HAL_OK then (2, device2, r.2.2)
  else if r.2.1 ≠ BMP180_DEVICE_ID then (3, device2, r.2.2)
  else
    let c := BMP180_Read_Calibration_Data device2 r.2.2
    if c.1 ≠ HAL_OK then (4, c.2.1, c.2.2)
    else (1, c.2.1, c.2.2)

/-! ## Raw measurements (BMP180.c lines 54-122) -/

/-- `BMP180_SET_CTRL_MEAS`. -/
def BMP180_SET_CTRL_MEAS (device : BMP180) (bus : Bus) (control_register : CONTROL_REGISTER) :
    HAL_StatusTypeDef × Bus :=
  BMP180_WriteReg device bus BMP180_REG_CTRL_MEAS control_register.val

/-- `BMP180_ReadRawTemp`.  The status of the control write is discarded, as in
the source. -/
def BMP180_ReadRawTemp (device : BMP180) (bus : Bus) : HAL_StatusTypeDef × BMP180 × Bus :=
  let w := BMP180_SET_CTRL_MEAS device bus CTRL_REG_TEMPERATURE
  let bus1 := HAL_Delay w.2 5
  let m := BMP180_ReadReg device bus1 BMP180_REG_OUT_MSB
  if m.1 ≠ HAL_OK then (m.1, device, m.2.2)
  else
    let l := BMP180_ReadReg device m.2.2 BMP180_REG_OUT_LSB
    if l.1 ≠ HAL_OK then (l.1, device, l.2.2)
    else
      let UT : Int := toU16 (((m.2.1 <<< 8) ||| l.2.1 : Nat) : Int)
      (l.1, { device with raw_temperature := UT }, l.2.2)

/-- The `if`/`else if` chain of `BMP180_ReadRawPressure`: the oversampling
setting and the delay selected by the command; any other command keeps the
stored setting and waits for nothing. -/
def selectOSS (control_register : CONTROL_REGISTER) (OSS : Int) (bus : Bus) : Int × Bus :=
  if control_register = CTRL_REG_PRESSURE_OSS_0 then (0, HAL_Delay bus 5)
  else if control_register = CTRL_REG_PRESSURE_OSS_1 then (1, HAL_Delay bus 8)
  else if control_register = CTRL_REG_PRESSURE_OSS_2 then (2, HAL_Delay bus 14)
  else if control_register = CTRL_REG_PRESSURE_OSS_3 then (3, HAL_Delay bus 26)
  else (OSS, bus)

/-- `BMP180_ReadRawPressure`. -/
def BMP180_ReadRawPressure (device : BMP180) (bus : Bus) (control_register : CONTROL_REGISTER) :
    HAL_StatusTypeDef × BMP180 × Bus :=
  let w := BMP180_SET_CTRL_MEAS device bus control_register
  let s := selectOSS control_register device.OSS w.2
  let OSS := s.1
  let m := BMP180_ReadReg device s.2 BMP180_REG_OUT_MSB
  if m.1 ≠ HAL_OK then (m.1, device, m.2.2)
  else
    let l := BMP180_ReadReg device m.2.2 BMP180_REG_OUT_LSB
    if l.1 ≠ HAL_OK then (l.1, device, l.2.2)
    else
      let x := BMP180_ReadReg device l.2.2 BMP180_REG_OUT_XLSB
      if x.1 ≠ HAL_OK then (x.1, device, x.2.2)
      else
        let UP : Int :=
          toU32 (sar32 ((((m.2.1 <<< 16) ||| (l.2.1 <<< 8) ||| x.2.1 : Nat) : Int)) (8 - OSS))
        (x.1, { device with OSS := OSS, raw_pressure := UP }, x.2.2)

/-! ## Compensation (BMP180.c lines 124-195) -/

/-- Lines 135-138 of `BMP180_ReadTemp`: `B5` and `T` from the calibration and
the raw code, every `int` operation reduced to 32 bits. -/
def tempCompensation (cd : CALIBRATION_DATA) (UT : Int) : Int × Int :=
  let X1 := wrap32 (Int.tdiv (wrap32 (wrap32 (UT - cd.AC6) * cd.AC5)) 0x8000)
  let X2 := wrap32 (Int.tdiv (wrap32 (cd.MC * 0x800)) (wrap32 (X1 + cd.MD)))
  let B5 := wrap32 (X1 + X2)
  let T := wrap32 (Int.tdiv (wrap32 (B5 + 8)) 0x10)
  (B5, T)

/-- `BMP180_ReadTemp`. -/
def BMP180_ReadTemp (device : BMP180) (bus : Bus) : HAL_StatusTypeDef × BMP180 × Bus :=
  let cd := device.calibration_data
  let r := BMP180_ReadRawTemp device bus
  if r.1 ≠ HAL_OK then (r.1, r.2.1, r.2.2)
  else
    let UT := toU16 r.2.1.raw_temperature
    let c := tempCompensation cd UT
    (r.1, { r.2.1 with B5 := c.1, temp_C := FloatVal.tenths c.2 }, r.2.2)

/-- Lines 165-187 of `BMP180_ReadPressure`: the final `int32_t p`. -/
def pressureCompensation (cd : CALIBRATION_DATA) (B5 UP OSS : Int) : Int :=
  let B6 := wrap32 (B5 - 4000)
  let X1 := sar32 (wrap32 (cd.B2 * sar32 (wrap32 (B6 * B6)) 12)) 11
  let X2 := sar32 (wrap32 (cd.AC2 * B6)) 11
  let X3 := wrap32 (X1 + X2)
  let B3 := sar32 (wrap32 (shl32 (wrap32 (wrap32 (cd.AC1 * 4) + X3)) OSS + 2)) 2
  let X1 := sar32 (wrap32 (cd.AC3 * B6)) 13
  let X2 := sar32 (wrap32 (cd.B1 * sar32 (wrap32 (B6 * B6)) 12)) 16
  let X3 := sar32 (wrap32 (wrap32 (X1 + X2) + 2)) 2
  let B4 := toU32 (cd.AC4 * toU32 (wrap32 (X3 + 32768))) / 32768
  let B7 := wrap32 (toU32 (toU32 (UP - B3) * sar32 50000 OSS))
  let p :=
    if toU32 B7 < 0x80000000 then wrap32 (toU32 (shl32 B7 1) / B4)
    else wrap32 (toU32 ((toU32 B7 / B4) * 2))
  let X1 := sar32 p 8
  let X1 := wrap32 (X1 * X1)
  let X1 := sar32 (wrap32 (X1 * 3038)) 16
  let X2 := sar32 (wrap32 (-7357 * p)) 16
  wrap32 (p + sar32 (wrap32 (wrap32 (X1 + X2) + 3791)) 4)

/-- `BMP180_ReadPressure`.  The local `status` is never assigned in the source,
so the value returned is whatever the stack slot held: `status` here.  The
statuses of the two inner calls are discarded, as in the source. -/
def BMP180_ReadPressure (status : HAL_StatusTypeDef) (device : BMP180) (bus : Bus)
    (control_register : CONTROL_REGISTER) : HAL_StatusTypeDef × BMP180 × Bus :=
  let cd := device.calibration_data
  let t := BMP180_ReadTemp device bus
  let B5 := t.2.1.B5
  let r := BMP180_ReadRawPressure t.2.1 t.2.2 control_register
  let OSS := r.2.1.OSS
  let UP := r.2.1.raw_pressure
  let p := pressureCompensation cd B5 UP OSS
  (status, { r.2.1 with pressure_Pa := toU32 p, elevation_M := FloatVal.elev p }, r.2.2)

/-! ## Reference computations, written from the specification -/

/-- The temperature compensation of the specification over exact integers, with
division truncating toward zero: `(X1, X2, B5, T)`. -/
def refTemp (cd : CALIBRATION_DATA) (UT : Int) : Int × Int × Int × Int :=
  let X1 := Int.tdiv ((UT - cd.AC6) * cd.AC5) 32768
  let X2 := Int.tdiv (cd.MC * 2048) (X1 + cd.MD)
  let B5 := X1 + X2
  let T := Int.tdiv (B5 + 8) 16
  (X1, X2, B5, T)

/-- Reduction of an exact integer to a signed 32-bit value. -/
def refS32 (x : Int) : Int := Int.bmod x 4294967296

/-- Arithmetic right shift: division by a power of two rounding down. -/
def refAsr (x : Int) (n : Nat) : Int := x / 2 ^ n

/-- The divisor `B4` of the pressure compensation of the specification, an
unsigned 32-bit value. -/
def refB4 (cd : CALIBRATION_DATA) (B5 : Int) : Int :=
  let B6 := refS32 (B5 - 4000)
  let X1 := refAsr (refS32 (cd.AC3 * B6)) 13
  let X2 := refAsr (refS32 (cd.B1 * refAsr (refS32 (B6 * B6)) 12)) 16
  let X3 := refAsr (refS32 (X1 + X2 + 2)) 2
  ((cd.AC4 * ((X3 + 32768) % 4294967296)) % 4294967296) / 2 ^ 15

/-- The value `B7` of the pressure compensation of the specification, read as
an unsigned 32-bit value. -/
def refB7 (cd : CALIBRATION_DATA) (B5 UP : Int) (OSS : Nat) : Int :=
  let B6 := refS32 (B5 - 4000)
  let X1 := refAsr (refS32 (cd.B2 * refAsr (refS32 (B6 * B6)) 12)) 11
  let X2 := refAsr (refS32 (cd.AC2 * B6)) 11
  let X3 := refS32 (X1 + X2)
  let B3 := refAsr (refS32 (refS32 (refS32 (cd.AC1 * 4 + X3) * 2 ^ OSS) + 2)) 2
  (((UP - B3) % 4294967296) * (50000 / 2 ^ OSS)) % 4294967296

/-- The pressure compensation of the specification: the manufacturer's sequence
in 32-bit arithmetic with arithmetic right shifts; the final signed `p`. -/
def refPressure (cd : CALIBRATION_DATA) (B5 UP : Int) (OSS : Nat) : Int :=
  let B4 := refB4 cd B5
  let B7 := refB7 cd B5 UP OSS
  let p :=
    if B7 < 0x80000000 then refS32 (((B7 * 2) % 4294967296) / B4)
    else refS32 (((B7 / B4) * 2) % 4294967296)
  let X1 := refAsr p 8
  let X1 := refS32 (X1 * X1)
  let X1 := refAsr (refS32 (X1 * 3038)) 16
  let X2 := refAsr (refS32 (-7357 * p)) 16
  refS32 (p + refAsr (refS32 (X1 + X2 + 3791)) 4)

/-! ## Concrete data used in the examples -/

/-- The calibration coefficients of the datasheet example. -/
def dsCal : CALIBRATION_DATA :=
  { AC1 := 408, AC2 := -72, AC3 := -14383, AC4 := 32741, AC5 := 32757, AC6 := 23153,
    B1 := 6190, B2 := 4, MB := -32768, MC := -8711, MD := 2868 }

/-- The datasheet calibration with `AC1`, `AC2`, `B2` zeroed, so that `B3 = 0`
and `B7 = UP * 50000` modulo 2^32 at oversampling 0. -/
def flatCal : CALIBRATION_DATA := { dsCal with AC1 := 0, AC2 := 0, B2 := 0 }

/-- A device holding the calibration `cd` and nothing else. -/
def blankDevice (cd : CALIBRATION_DATA) : BMP180 :=
  { hi2c := 1, device_id_status := HAL_OK, OSS := 0, B5 := 0, raw_pressure := 0,
    raw_temperature := 0, pressure_Pa := 0, temp_C := FloatVal.bits 0,
    elevation_M := FloatVal.bits 0, calibration_data := cd }

/-- A transport that answers its `n`-th operation (delays included) with the
`n`-th entry of `script`, and with success and zero bytes once the script is
exhausted. -/
def scriptedBus (script : List (HAL_StatusTypeDef × List Nat)) : Bus :=
  { respond := fun hist _ =>
      { status := (script.getD hist.length (HAL_OK, [])).1
        data := fun i => (script.getD hist.length (HAL_OK, [])).2.getD i 0 }
    trace := [] }

/-- Temperature conversion of the datasheet example: raw code 27898 = 0x6CFA. -/
def dsTempBus : Bus :=
  scriptedBus [(HAL_OK, []), (HAL_OK, []), (HAL_OK, [0x6C]), (HAL_OK, [0xFA])]

/-- A calibration with `AC5` above 32768, for which the product overflows. -/
def bigCal : CALIBRATION_DATA :=
  { AC1 := 0, AC2 := 0, AC3 := 0, AC4 := 0, AC5 := 65535, AC6 := 0,
    B1 := 0, B2 := 0, MB := 0, MC := 0, MD := 2868 }

/-- Raw temperature code 65535. -/
def bigTempBus : Bus :=
  scriptedBus [(HAL_OK, []), (HAL_OK, []), (HAL_OK, [0xFF]), (HAL_OK, [0xFF])]

/-- Temperature and pressure conversions of the datasheet example: raw
temperature 27898, raw pressure 23843 = 0x5D23 at oversampling 0. -/
def dsPressureBus : Bus :=
  scriptedBus [(HAL_OK, []), (HAL_OK, []), (HAL_OK, [0x6C]), (HAL_OK, [0xFA]),
    (HAL_OK, []), (HAL_OK, []), (HAL_OK, [0x5D]), (HAL_OK, [0x23]), (HAL_OK, [0x00])]

/-- A 16-bit word read as a two's-complement signed value. -/
def refSigned16 (w : Nat) : Int := if w < 32768 then (w : Int) else (w : Int) - 65536

/-- The calibration block of the datasheet example, as the 22 EEPROM bytes. -/
def dsCalibBytes : List Nat :=
  [0x01, 0x98, 0xFF, 0xB8, 0xC7, 0xD1, 0x7F, 0xE5, 0x7F, 0xF5, 0x5A, 0x71,
   0x18, 0x2E, 0x00, 0x04, 0x80, 0x00, 0xDD, 0xF9, 0x0B, 0x34]

/-- A transport whose first operation returns the datasheet calibration block. -/
def dsCalibBus : Bus := scriptedBus [(HAL_OK, dsCalibBytes)]

/-- A transport whose identity read succeeds with the byte 0x56. -/
def wrongIdBus : Bus := scriptedBus [(HAL_OK, [0x56]), (HAL_OK, dsCalibBytes)]

/-- A device with the datasheet calibration and earlier results in place: a stale
`B5 = 2399`, a stored pressure of 101325 Pa and its elevation. -/
def staleDevice : BMP180 :=
  { hi2c := 1, device_id_status := HAL_OK, OSS := 0, B5 := 2399, raw_pressure := 0,
    raw_temperature := 0, pressure_Pa := 101325, temp_C := FloatVal.tenths 150,
    elevation_M := FloatVal.elev 101325, calibration_data := dsCal }

/-- A transport on which the read of the temperature MSB fails and everything
else succeeds; the pressure registers hold the raw code 23843. -/
def tempFailBus : Bus :=
  scriptedBus [(HAL_OK, []), (HAL_OK, []), (HAL_ERROR, []),
    (HAL_OK, []), (HAL_OK, []), (HAL_OK, [0x5D]), (HAL_OK, [0x23]), (HAL_OK, [0x00])]

/-- A transport on which the raw-pressure pass fails at its first read. -/
def pressureFailBus : Bus :=
  scriptedBus [(HAL_OK, []), (HAL_OK, []), (HAL_OK, [0x6C]), (HAL_OK, [0xFA]),
    (HAL_OK, []), (HAL_OK, []), (HAL_TIMEOUT, [])]

/-- A transport on which the control write fails and the reads that follow
succeed with the bytes 0x6C, 0xFA, 0x00. -/
def writeFailBus : Bus :=
  scriptedBus [(HAL_ERROR, []), (HAL_OK, []), (HAL_OK, [0x6C]), (HAL_OK, [0xFA]),
    (HAL_OK, [0x00])]

/-- The enumerator `CTRL_REG_PRESSURE_OSS_k` for the oversampling level `k`. -/
def pressureCommand : Nat → CONTROL_REGISTER
  | 0 => CTRL_REG_PRESSURE_OSS_0
  | 1 => CTRL_REG_PRESSURE_OSS_1
  | 2 => CTRL_REG_PRESSURE_OSS_2
  | _ => CTRL_REG_PRESSURE_OSS_3

/-- The pressure-start command byte of the specification for level `k`. -/
def refCommandByte : Nat → Nat
  | 0 => 0x34
  | 1 => 0x74
  | 2 => 0xB4
  | _ => 0xF4

/-- The settling delay in milliseconds of the specification for level `k`. -/
def refSettlingDelay : Nat → Nat
  | 0 => 5
  | 1 => 8
  | 2 => 14
  | _ => 26

/-- A transport on which every operation succeeds, all bytes zero. -/
def okBus : Bus := scriptedBus []

/-- A transport whose three output registers return 0xFF at every read. -/
def fullScaleBus : Bus :=
  scriptedBus [(HAL_OK, []), (HAL_OK, []), (HAL_OK, [0xFF]), (HAL_OK, [0xFF]), (HAL_OK, [0xFF])]

/-- A transport whose identity read returns 0x55 and whose calibration read
returns the datasheet block. -/
def initOkBus : Bus := scriptedBus [(HAL_OK, [0x55]), (HAL_OK, dsCalibBytes)]

/-- A transport whose first operation fails with `HAL_ERROR`. -/
def firstFailBus : Bus := scriptedBus [(HAL_ERROR, dsCalibBytes)]

/-- Calibration fields that were never loaded: every field holds 1. -/
def junkCal : CALIBRATION_DATA :=
  { AC1 := 1, AC2 := 1, AC3 := 1, AC4 := 1, AC5 := 1, AC6 := 1,
    B1 := 1, B2 := 1, MB := 1, MC := 1, MD := 1 }

/-- A transport whose identity read returns 0x56 and on which the measurement
cycle that follows succeeds: raw temperature 27898, raw pressure 23843. -/
def uncalibratedBus : Bus :=
  scriptedBus [(HAL_OK, [0x56]),
    (HAL_OK, []), (HAL_OK, []), (HAL_OK, [0x6C]), (HAL_OK, [0xFA]),
    (HAL_OK, []), (HAL_OK, []), (HAL_OK, [0x5D]), (HAL_OK, [0x23]), (HAL_OK, [0x00])]

/-- The real number that the expression of line 192,
`44330 * (1 - pow((float)p / (float)PRESSURE_SEA_LEVEL_PA, 0.19029495718))`,
denotes when its floating-point operations are read as exact operations on
real numbers; `FloatVal.elev p` stands for the float the driver computes. -/
noncomputable def elevationReal (p : Int) : ℝ :=
  44330 * (1 - ((p : ℝ) / (PRESSURE_SEA_LEVEL_PA : ℝ)) ^ (0.19029495718 : ℝ))

/-- The one-byte read of register `reg` through the handle of the device. -/
def readOp (device : BMP180) (reg : Nat) : BusOp :=
  BusOp.MemRead device.hi2c 0xEE reg 1

/-- The history of the bus when `BMP180_ReadRawTemp` starts reading: the
command 0x2E written to 0xF4, then 5 ms. -/
def tempReadHistory (device : BMP180) (bus : Bus) : List BusOp :=
  bus.trace ++ [BusOp.MemWrite device.hi2c 0xEE 0xF4 0x2E, BusOp.Delay 5]

/-- The history of the bus when `BMP180_ReadRawPressure` starts reading: the
command written to 0xF4, then the delay of a pressure command, none for the
temperature command. -/
def pressureReadHistory (device : BMP180) (bus : Bus) (cr : CONTROL_REGISTER) :
    List BusOp :=
  bus.trace ++ BusOp.MemWrite device.hi2c 0xEE 0xF4 cr.val ::
    (match cr with
     | CTRL_REG_TEMPERATURE => []
     | CTRL_REG_PRESSURE_OSS_0 => [BusOp.Delay 5]
     | CTRL_REG_PRESSURE_OSS_1 => [BusOp.Delay 8]
     | CTRL_REG_PRESSURE_OSS_2 => [BusOp.Delay 14]
     | CTRL_REG_PRESSURE_OSS_3 => [BusOp.Delay 26])

/-- A transport on which the read of the XLSB register of a pressure conversion
times out after the MSB and LSB reads succeeded. -/
def xlsbFailBus : Bus :=
  scriptedBus [(HAL_OK, []), (HAL_OK, []), (HAL_OK, [0x5D]), (HAL_OK, [0x23]),
    (HAL_TIMEOUT, [0x00])]

/-- A transport on which the read of the LSB register of a temperature
conversion is busy after the MSB read succeeded. -/
def lsbFailBus : Bus :=
  scriptedBus [(HAL_OK, []), (HAL_OK, []), (HAL_OK, [0x6C]), (HAL_BUSY, [0xFA])]

/-- Lines 165 and 171-175 of `BMP180_ReadPressure`: the `uint32_t B4`. -/
def compB4 (cd : CALIBRATION_DATA) (B5 : Int) : Int :=
  let B6 := wrap32 (B5 - 4000)
  let X1 := sar32 (wrap32 (cd.AC3 * B6)) 13
  let X2 := sar32 (wrap32 (cd.B1 * sar32 (wrap32 (B6 * B6)) 12)) 16
  let X3 := sar32 (wrap32 (wrap32 (X1 + X2) + 2)) 2
  toU32 (cd.AC4 * toU32 (wrap32 (X3 + 32768))) / 32768

/-- Lines 165-169 and 176 of `BMP180_ReadPressure`: the `int32_t B7`. -/
def compB7 (cd : CALIBRATION_DATA) (B5 UP OSS : Int) : Int :=
  let B6 := wrap32 (B5 - 4000)
  let X1 := sar32 (wrap32 (cd.B2 * sar32 (wrap32 (B6 * B6)) 12)) 11
  let X2 := sar32 (wrap32 (cd.AC2 * B6)) 11
  let X3 := wrap32 (X1 + X2)
  let B3 := sar32 (wrap32 (shl32 (wrap32 (wrap32 (cd.AC1 * 4) + X3)) OSS + 2)) 2
  wrap32 (toU32 (toU32 (UP - B3) * sar32 50000 OSS))

/-- Lines 178-181 of `BMP180_ReadPressure`: the coarse `int32_t p` from the
`int32_t B7` and the `uint32_t B4`; comparison and divisions are unsigned. -/
def coarsePressure (B7 B4 : Int) : Int :=
  if toU32 B7 < 0x80000000 then wrap32 (toU32 (shl32 B7 1) / B4)
  else wrap32 (toU32 ((toU32 B7 / B4) * 2))

/-- Lines 183-187 of `BMP180_ReadPressure`: the correction of the coarse `p`. -/
def pressureCorrection (p : Int) : Int :=
  let X1 := sar32 p 8
  let X1 := wrap32 (X1 * X1)
  let X1 := sar32 (wrap32 (X1 * 3038)) 16
  let X2 := sar32 (wrap32 (-7357 * p)) 16
  wrap32 (p + sar32 (wrap32 (wrap32 (X1 + X2) + 3791)) 4)

/-- The datasheet calibration with `AC4 = 1`, which makes `B4 = 1`. -/
def smallAC4Cal : CALIBRATION_DATA := { dsCal with AC4 := 1 }

/-- Signed `a / b` of C on `int`: no value for a zero divisor. -/
def cDiv (a b : Int) : Option Int :=
  if b = 0 then none else some (wrap32 (Int.tdiv a b))

/-- Unsigned `a / b` of C on `uint32_t`: no value for a zero divisor. -/
def cDivU (a b : Int) : Option Int :=
  if b = 0 then none else some (a / b)

/-- Line 135 of `BMP180_ReadTemp`: the `int32_t X1`. -/
def tempX1 (cd : CALIBRATION_DATA) (UT : Int) : Int :=
  wrap32 (Int.tdiv (wrap32 (wrap32 (UT - cd.AC6) * cd.AC5)) 0x8000)

/-- The divisor `X1 + cd.MD` of line 136. -/
def tempDivisor (cd : CALIBRATION_DATA) (UT : Int) : Int :=
  wrap32 (wrap32 (Int.tdiv (wrap32 (wrap32 (UT - cd.AC6) * cd.AC5)) 0x8000) + cd.MD)

/-- Lines 135-138 of `BMP180_ReadTemp` with the divisions of C: no result when
a divisor is zero. -/
def tempCompensationC (cd : CALIBRATION_DATA) (UT : Int) : Option (Int × Int) :=
  (cDiv (wrap32 (wrap32 (UT - cd.AC6) * cd.AC5)) 0x8000).bind fun X1 =>
  (cDiv (wrap32 (cd.MC * 0x800)) (wrap32 (X1 + cd.MD))).bind fun X2 =>
  let B5 := wrap32 (X1 + X2)
  (cDiv (wrap32 (B5 + 8)) 0x10).bind fun T =>
  some (B5, T)

/-- Lines 178-181 of `BMP180_ReadPressure` with the divisions of C. -/
def coarsePressureC (B7 B4 : Int) : Option Int :=
  if toU32 B7 < 0x80000000 then (cDivU (toU32 (shl32 B7 1)) B4).map wrap32
  else (cDivU (toU32 B7) B4).map fun q => wrap32 (toU32 (q * 2))

/-- A calibration structure of zeros. -/
def zeroCal : CALIBRATION_DATA :=
  { AC1 := 0, AC2 := 0, AC3 := 0, AC4 := 0, AC5 := 0, AC6 := 0,
    B1 := 0, B2 := 0, MB := 0, MC := 0, MD := 0 }

/-- Membership in the range of `int32_t`. -/
def inInt32 (x : Int) : Prop := -2147483648 ≤ x ∧ x ≤ 2147483647

instance (x : Int) : Decidable (inInt32 x) := by
  unfold inInt32; infer_instance

/-- A transport on which the write and three reads succeed with the bytes 0x5D,
0x23, 0x00, without any delay in between. -/
def noDelayBus : Bus :=
  scriptedBus [(HAL_OK, []), (HAL_OK, [0x5D]), (HAL_OK, [0x23]), (HAL_OK, [0x00])]

/-- A device whose stored oversampling setting is 2. -/
def oss2Device : BMP180 := { blankDevice dsCal with OSS := 2 }

/-! ## Arithmetic lemmas -/

theorem wrap32_of_range {x : Int} (h1 : -2147483648 ≤ x) (h2 : x ≤ 2147483647) :
    wrap32 x = x := by
  unfold wrap32; omega

theorem tdiv_bounds (a b M : Int) (h1 : -M ≤ a) (h2 : a ≤ M) :
    -M ≤ Int.tdiv a b ∧ Int.tdiv a b ≤ M := by
  have h := Int.natAbs_tdiv a b
  have h3 : (Int.natAbs a).div (Int.natAbs b) ≤ Int.natAbs a := Nat.div_le_self _ _
  omega

theorem byte_pair (a b : Nat) (hb : b < 256) : (a <<< 8) ||| b = a * 256 + b := by
  rw [Nat.shiftLeft_eq, Nat.mul_comm a]
  exact (Nat.mul_add_lt_is_or (i := 8) hb a).symm

theorem tdiv_32768_bounds (a : Int) (h1 : -2147483648 ≤ a) (h2 : a ≤ 2147483647) :
    -65536 ≤ Int.tdiv a 32768 ∧ Int.tdiv a 32768 ≤ 65536 := by
  have h := Int.natAbs_tdiv a 32768
  have h3 : (Int.natAbs a).div (Int.natAbs 32768) = Int.natAbs a / 32768 := rfl
  omega

theorem toU16_range (x : Int) : 0 ≤ toU16 x ∧ toU16 x ≤ 65535 := by
  unfold toU16; omega

theorem toU16_of_range {x : Int} (h1 : 0 ≤ x) (h2 : x ≤ 65535) : toU16 x = x := by
  unfold toU16; omega

/-- On success `BMP180_ReadRawTemp` leaves a 16-bit raw code and the calibration
as it was. -/
theorem readRawTemp_ok (device : BMP180) (bus : Bus)
    (h : (BMP180_ReadRawTemp device bus).1 = HAL_OK) :
    0 ≤ (BMP180_ReadRawTemp device bus).2.1.raw_temperature ∧
    (BMP180_ReadRawTemp device bus).2.1.raw_temperature ≤ 65535 ∧
    (BMP180_ReadRawTemp device bus).2.1.calibration_data = device.calibration_data := by
  unfold BMP180_ReadRawTemp at h ⊢
  simp only [] at h ⊢
  split_ifs at h ⊢ with h1 h2
  · exact absurd h h1
  · exact absurd h h2
  · refine ⟨(toU16_range _).1, (toU16_range _).2, rfl⟩

theorem tempCompensation_exact (cd : CALIBRATION_DATA) (UT : Int)
    (hUT : 0 ≤ UT ∧ UT ≤ 65535)
    (hAC6 : 0 ≤ cd.AC6 ∧ cd.AC6 ≤ 65535)
    (hMC : -32768 ≤ cd.MC ∧ cd.MC ≤ 32767)
    (hMD : -32768 ≤ cd.MD ∧ cd.MD ≤ 32767)
    (hfit : -2147483648 ≤ (UT - cd.AC6) * cd.AC5 ∧ (UT - cd.AC6) * cd.AC5 ≤ 2147483647) :
    tempCompensation cd UT = ((refTemp cd UT).2.2.1, (refTemp cd UT).2.2.2) := by
  unfold tempCompensation refTemp
  simp only []
  have e1 : wrap32 (UT - cd.AC6) = UT - cd.AC6 := wrap32_of_range (by omega) (by omega)
  rw [e1, wrap32_of_range hfit.1 hfit.2]
  have b1 := tdiv_32768_bounds ((UT - cd.AC6) * cd.AC5) hfit.1 hfit.2
  generalize Int.tdiv ((UT - cd.AC6) * cd.AC5) 32768 = X1 at b1 ⊢
  rw [wrap32_of_range (x := X1) (by omega) (by omega),
    wrap32_of_range (x := cd.MC * 2048) (by omega) (by omega),
    wrap32_of_range (x := X1 + cd.MD) (by omega) (by omega)]
  have b2 := tdiv_bounds (cd.MC * 2048) (X1 + cd.MD) 67108864 (by omega) (by omega)
  generalize Int.tdiv (cd.MC * 2048) (X1 + cd.MD) = X2 at b2 ⊢
  rw [wrap32_of_range (x := X2) (by omega) (by omega),
    wrap32_of_range (x := X1 + X2) (by omega) (by omega),
    wrap32_of_range (x := X1 + X2 + 8) (by omega) (by omega)]
  have b3 := tdiv_bounds (X1 + X2 + 8) 16 67200000 (by omega) (by omega)
  rw [wrap32_of_range (x := Int.tdiv (X1 + X2 + 8) 16) (by omega) (by omega)]

/-! ## C1 -/

/-- C1 (amended): on a device whose calibration has `AC5`, `AC6` in the unsigned
and `MC`, `MD` in the signed 16-bit range, whenever `BMP180_ReadTemp` succeeds,
the product `(UT - AC6) * AC5` lies in the signed 32-bit range and the reference
divisor `X1 + MD` is not zero, the stored raw code `UT` is a 16-bit value and the
stored `B5` and temperature (tenths `T`, `temp_C = T / 10`) equal the reference
computation over exact integers with truncating division.  On the datasheet
example the reference gives `X1 = 4743`, `X2 = -2343`, `B5 = 2400`, `T = 150`. -/
theorem readTemp_reference (device : BMP180) (bus : Bus)
    (_hAC5 : 0 ≤ device.calibration_data.AC5 ∧ device.calibration_data.AC5 ≤ 65535)
    (hAC6 : 0 ≤ device.calibration_data.AC6 ∧ device.calibration_data.AC6 ≤ 65535)
    (hMC : -32768 ≤ device.calibration_data.MC ∧ device.calibration_data.MC ≤ 32767)
    (hMD : -32768 ≤ device.calibration_data.MD ∧ device.calibration_data.MD ≤ 32767)
    (hok : (BMP180_ReadTemp device bus).1 = HAL_OK)
    (hfit : -2147483648 ≤ ((BMP180_ReadTemp device bus).2.1.raw_temperature
                - device.calibration_data.AC6) * device.calibration_data.AC5 ∧
            ((BMP180_ReadTemp device bus).2.1.raw_temperature
                - device.calibration_data.AC6) * device.calibration_data.AC5 ≤ 2147483647)
    (_hdiv : (refTemp device.calibration_data
              (BMP180_ReadTemp device bus).2.1.raw_temperature).1
            + device.calibration_data.MD ≠ 0) :
    0 ≤ (BMP180_ReadTemp device bus).2.1.raw_temperature ∧
    (BMP180_ReadTemp device bus).2.1.raw_temperature ≤ 65535 ∧
    (BMP180_ReadTemp device bus).2.1.B5 =
      (refTemp device.calibration_data
        (BMP180_ReadTemp device bus).2.1.raw_temperature).2.2.1 ∧
    (BMP180_ReadTemp device bus).2.1.temp_C =
      FloatVal.tenths (refTemp device.calibration_data
        (BMP180_ReadTemp device bus).2.1.raw_temperature).2.2.2 ∧
    refTemp dsCal 27898 = (4743, -2343, 2400, 150) := by
  have hraw : (BMP180_ReadRawTemp device bus).1 = HAL_OK := by
    unfold BMP180_ReadTemp at hok
    simp only [] at hok
    split_ifs at hok with h1
    · exact absurd hok h1
    · exact hok
  have hr := readRawTemp_ok device bus hraw
  have hUT : (BMP180_ReadTemp device bus).2.1.raw_temperature
      = (BMP180_ReadRawTemp device bus).2.1.raw_temperature := by
    unfold BMP180_ReadTemp
    simp only []
    split_ifs <;> rfl
  rw [hUT] at hfit ⊢
  have hc := tempCompensation_exact device.calibration_data
    (BMP180_ReadRawTemp device bus).2.1.raw_temperature ⟨hr.1, hr.2.1⟩ hAC6 hMC hMD hfit
  refine ⟨hr.1, hr.2.1, ?_, ?_, by decide⟩
  · unfold BMP180_ReadTemp
    simp only []
    rw [if_neg (by simp [hraw])]
    simp only [toU16_of_range hr.1 hr.2.1, hc]
  · unfold BMP180_ReadTemp
    simp only []
    rw [if_neg (by simp [hraw])]
    simp only [toU16_of_range hr.1 hr.2.1, hc]

/-- The datasheet example end to end: the driver reads the raw code 27898 and
stores `B5 = 2400` and `T = 150`. -/
theorem readTemp_reference_witness :
    (BMP180_ReadTemp (blankDevice dsCal) dsTempBus).1 = HAL_OK ∧
    (BMP180_ReadTemp (blankDevice dsCal) dsTempBus).2.1.raw_temperature = 27898 ∧
    (BMP180_ReadTemp (blankDevice dsCal) dsTempBus).2.1.B5 = 2400 ∧
    (BMP180_ReadTemp (blankDevice dsCal) dsTempBus).2.1.temp_C = FloatVal.tenths 150 :=
  have h := readTemp_reference (blankDevice dsCal) dsTempBus (by decide) (by decide)
    (by decide) (by decide) (by decide) (by decide) (by decide)
  ⟨by decide, by decide, h.2.2.1.trans (by decide), h.2.2.2.1.trans (by decide)⟩

/-- C1 as stated fails twice.  On the datasheet example truncating division
gives `X2 = -2343` and the driver stores `B5 = 2400`, not `-2344` and `2399`.
With `AC5 = 65535`, `AC6 = 0`, `MD = 2868` and raw code 65535 the product
`(UT - AC6) * AC5` exceeds the signed 32-bit range: the driver stores
`B5 = -3` where the exact reference gives `131068`. -/
theorem readTemp_reference_counterexample :
    ((BMP180_ReadTemp (blankDevice dsCal) dsTempBus).1 = HAL_OK ∧
      (BMP180_ReadTemp (blankDevice dsCal) dsTempBus).2.1.raw_temperature = 27898 ∧
      (refTemp dsCal 27898).2.1 = -2343 ∧
      (BMP180_ReadTemp (blankDevice dsCal) dsTempBus).2.1.B5 = 2400 ∧
      (BMP180_ReadTemp (blankDevice dsCal) dsTempBus).2.1.B5 ≠ 2399) ∧
    ((BMP180_ReadTemp (blankDevice bigCal) bigTempBus).1 = HAL_OK ∧
      (BMP180_ReadTemp (blankDevice bigCal) bigTempBus).2.1.raw_temperature = 65535 ∧
      (refTemp bigCal 65535).1 + bigCal.MD ≠ 0 ∧
      (BMP180_ReadTemp (blankDevice bigCal) bigTempBus).2.1.B5 = -3 ∧
      (refTemp bigCal 65535).2.2.1 = 131068) := by
  decide

theorem wrap32_eq_refS32 (x : Int) : wrap32 x = refS32 x := by
  unfold wrap32 refS32
  rw [Int.bmod_def]
  split <;> omega

theorem wrap32_add_wrap32 (a b : Int) : wrap32 (wrap32 a + b) = wrap32 (a + b) := by
  unfold wrap32; omega

theorem toU32_wrap32 (a : Int) : toU32 (wrap32 a) = toU32 a := by
  unfold wrap32 toU32; omega

theorem sar32_natCast (x : Int) (k : Nat) : sar32 x (k : Int) = refAsr x k := by
  unfold sar32 refAsr
  rw [Int.toNat_ofNat]
  have h := Int.shiftRight_eq_div_pow x k
  rw [Nat.cast_pow] at h
  exact h


theorem pressureCompensation_eq_ref (cd : CALIBRATION_DATA) (B5 UP : Int) (k : Nat) :
    pressureCompensation cd B5 UP k = refPressure cd B5 UP k := by
  have e2 : ∀ x, sar32 x 2 = refAsr x 2 := fun x => sar32_natCast x 2
  have e4 : ∀ x, sar32 x 4 = refAsr x 4 := fun x => sar32_natCast x 4
  have e8 : ∀ x, sar32 x 8 = refAsr x 8 := fun x => sar32_natCast x 8
  have e11 : ∀ x, sar32 x 11 = refAsr x 11 := fun x => sar32_natCast x 11
  have e12 : ∀ x, sar32 x 12 = refAsr x 12 := fun x => sar32_natCast x 12
  have e13 : ∀ x, sar32 x 13 = refAsr x 13 := fun x => sar32_natCast x 13
  have e16 : ∀ x, sar32 x 16 = refAsr x 16 := fun x => sar32_natCast x 16
  have t1 : Int.toNat 1 = 1 := rfl
  have p15 : (2 : Int) ^ 15 = 32768 := by norm_num
  unfold pressureCompensation refPressure refB4 refB7 shl32
  simp only [e2, e4, e8, e11, e12, e13, e16, t1, p15, sar32_natCast, Int.toNat_ofNat,
    wrap32_add_wrap32, toU32_wrap32, ← wrap32_eq_refS32]
  unfold toU32
  generalize wrap32 (B5 - 4000) = B6
  generalize refAsr (wrap32 (B6 * B6)) 12 = Q
  generalize refAsr
    (wrap32 (wrap32 (cd.AC1 * 4 + wrap32 (refAsr (wrap32 (cd.B2 * Q)) 11
      + refAsr (wrap32 (cd.AC2 * B6)) 11)) * 2 ^ k + 2)) 2 = B3
  generalize cd.AC4 * ((refAsr (wrap32 (refAsr (wrap32 (cd.AC3 * B6)) 13
      + refAsr (wrap32 (cd.B1 * Q)) 16 + 2)) 2 + 32768) % 4294967296) % 4294967296 / 32768 = B4
  generalize hS : refAsr 50000 k = S
  have hS2 : (50000 : Int) / 2 ^ k = S := hS
  rw [hS2]
  have hB7 : 0 ≤ (UP - B3) % 4294967296 * S % 4294967296 ∧
      (UP - B3) % 4294967296 * S % 4294967296 < 4294967296 := by
    constructor <;> omega
  generalize (UP - B3) % 4294967296 * S % 4294967296 = B7 at hB7 ⊢
  have m1 : B7 % 4294967296 = B7 := Int.emod_eq_of_lt hB7.1 hB7.2
  have hp : (if B7 % 4294967296 < 2147483648 then
        wrap32 (wrap32 B7 * 2 ^ 1 % 4294967296 / B4)
      else wrap32 (B7 % 4294967296 / B4 * 2 % 4294967296)) =
      (if B7 < 2147483648 then wrap32 (B7 * 2 % 4294967296 / B4)
      else wrap32 (B7 / B4 * 2 % 4294967296)) := by
    rw [m1]
    split
    · have : wrap32 B7 * 2 ^ 1 % 4294967296 = B7 * 2 % 4294967296 := by
        unfold wrap32; omega
      rw [this]
    · rfl
  rw [hp]

theorem refPressure_lt (cd : CALIBRATION_DATA) (B5 UP : Int) (k : Nat) :
    refPressure cd B5 UP k < 2147483648 := by
  rw [← pressureCompensation_eq_ref]
  unfold pressureCompensation
  simp only []
  unfold wrap32
  omega

/-! ## C2 -/

/-- C2: for every device, transport and command, if the oversampling setting
that `BMP180_ReadPressure` reads back is `k` with `k ≤ 3` and the reference
divisor `B4` is not zero, the stored `pressure_Pa` is the 32-bit pattern of the
manufacturer's reference sequence evaluated on the device's calibration, the
`B5` left by the temperature pass, the stored raw pressure code and `k` (the
reference value itself when that is not negative); the `B7` branch taken is the
one the unsigned comparison with `0x80000000` selects, as the evaluations at
`B7 = 0x7FFFFFF0` and `B7 = 0x80000000` show.  On the datasheet example
(`B5 = 2399`, `UP = 23843`, `OSS = 0`) the reference gives 69964 Pa. -/
theorem readPressure_reference (status : HAL_StatusTypeDef) (device : BMP180) (bus : Bus)
    (control_register : CONTROL_REGISTER) (k : Nat) (_hk : k ≤ 3)
    (hOSS : (BMP180_ReadPressure status device bus control_register).2.1.OSS = (k : Int))
    (_hB4 : refB4 device.calibration_data (BMP180_ReadTemp device bus).2.1.B5 ≠ 0) :
    (BMP180_ReadPressure status device bus control_register).2.1.pressure_Pa =
      refPressure device.calibration_data (BMP180_ReadTemp device bus).2.1.B5
        (BMP180_ReadPressure status device bus control_register).2.1.raw_pressure k
        % 4294967296 ∧
    (0 ≤ refPressure device.calibration_data (BMP180_ReadTemp device bus).2.1.B5
        (BMP180_ReadPressure status device bus control_register).2.1.raw_pressure k →
      (BMP180_ReadPressure status device bus control_register).2.1.pressure_Pa =
        refPressure device.calibration_data (BMP180_ReadTemp device bus).2.1.B5
          (BMP180_ReadPressure status device bus control_register).2.1.raw_pressure k) ∧
    (refB7 flatCal 2399 204741091 0 = 0x7FFFFFF0 ∧
      pressureCompensation flatCal 2399 204741091 0 = refPressure flatCal 2399 204741091 0) ∧
    (refB7 flatCal 2399 134217728 0 = 0x80000000 ∧
      pressureCompensation flatCal 2399 134217728 0 = refPressure flatCal 2399 134217728 0) ∧
    refPressure dsCal 2399 23843 0 = 69964 := by
  have h : (BMP180_ReadRawPressure (BMP180_ReadTemp device bus).2.1
      (BMP180_ReadTemp device bus).2.2 control_register).2.1.OSS = (k : Int) := hOSS
  have e : (BMP180_ReadPressure status device bus control_register).2.1.pressure_Pa =
      refPressure device.calibration_data (BMP180_ReadTemp device bus).2.1.B5
        (BMP180_ReadPressure status device bus control_register).2.1.raw_pressure k
        % 4294967296 := by
    show toU32 (pressureCompensation device.calibration_data
      (BMP180_ReadTemp device bus).2.1.B5
      (BMP180_ReadRawPressure (BMP180_ReadTemp device bus).2.1
        (BMP180_ReadTemp device bus).2.2 control_register).2.1.raw_pressure
      (BMP180_ReadRawPressure (BMP180_ReadTemp device bus).2.1
        (BMP180_ReadTemp device bus).2.2 control_register).2.1.OSS) = _
    rw [h, pressureCompensation_eq_ref]
    rfl
  refine ⟨e, ?_, by decide, by decide, by decide⟩
  intro hp
  rw [e]
  have hlt := refPressure_lt device.calibration_data (BMP180_ReadTemp device bus).2.1.B5
    (BMP180_ReadPressure status device bus control_register).2.1.raw_pressure k
  omega

/-- The datasheet example end to end: raw temperature 27898, raw pressure 23843
at oversampling 0; the driver stores 69964 Pa. -/
theorem readPressure_reference_witness :
    (BMP180_ReadPressure HAL_OK (blankDevice dsCal) dsPressureBus
      CTRL_REG_PRESSURE_OSS_0).2.1.raw_pressure = 23843 ∧
    (BMP180_ReadPressure HAL_OK (blankDevice dsCal) dsPressureBus
      CTRL_REG_PRESSURE_OSS_0).2.1.pressure_Pa = 69964 :=
  have h := readPressure_reference HAL_OK (blankDevice dsCal) dsPressureBus
    CTRL_REG_PRESSURE_OSS_0 0 (by decide) (by decide) (by decide)
  ⟨by decide, h.1.trans (by decide)⟩

theorem calib_word_signed (a b : Nat) (ha : a < 256) (hb : b < 256) :
    wrap16 (((a <<< 8) ||| b : Nat) : Int) = refSigned16 (a * 256 + b) := by
  rw [byte_pair a b hb]
  unfold wrap16 refSigned16
  split <;> push_cast <;> omega

theorem calib_word_unsigned (a b : Nat) (ha : a < 256) (hb : b < 256) :
    toU16 (((a <<< 8) ||| b : Nat) : Int) = ((a * 256 + b : Nat) : Int) := by
  rw [byte_pair a b hb]
  unfold toU16
  push_cast
  omega

theorem byte_lt (r : Response) (i : Nat) : r.byte i < 256 := by
  unfold Response.byte; omega

/-! ## C3 -/

/-- C3: when the 22-byte read at the calibration base register succeeds and
returns the bytes `b`, `BMP180_Read_Calibration_Data` succeeds and sets the
eleven fields, in the order AC1, AC2, AC3, AC4, AC5, AC6, B1, B2, MB, MC, MD, to
the words `b[2i] * 256 + b[2i+1]`, unsigned for AC4, AC5, AC6 and two's
complement signed for the other eight. -/
theorem readCalibration_fields (device : BMP180) (bus : Bus) (b : Nat → Nat)
    (hok : (bus.respond bus.trace
      (BusOp.MemRead device.hi2c BMP180_I2C_ADDR BMP180_REG_CALIB_0 22)).status = HAL_OK)
    (hb : ∀ i, b i = (bus.respond bus.trace
      (BusOp.MemRead device.hi2c BMP180_I2C_ADDR BMP180_REG_CALIB_0 22)).byte i) :
    (BMP180_Read_Calibration_Data device bus).1 = HAL_OK ∧
    (BMP180_Read_Calibration_Data device bus).2.1.calibration_data =
      { AC1 := refSigned16 (b 0 * 256 + b 1)
        AC2 := refSigned16 (b 2 * 256 + b 3)
        AC3 := refSigned16 (b 4 * 256 + b 5)
        AC4 := ((b 6 * 256 + b 7 : Nat) : Int)
        AC5 := ((b 8 * 256 + b 9 : Nat) : Int)
        AC6 := ((b 10 * 256 + b 11 : Nat) : Int)
        B1 := refSigned16 (b 12 * 256 + b 13)
        B2 := refSigned16 (b 14 * 256 + b 15)
        MB := refSigned16 (b 16 * 256 + b 17)
        MC := refSigned16 (b 18 * 256 + b 19)
        MD := refSigned16 (b 20 * 256 + b 21) } := by
  have hlt : ∀ i, b i < 256 := fun i => by rw [hb i]; exact byte_lt _ i
  have hs : (BMP180_ReadRegs device bus BMP180_REG_CALIB_0 22).1 = HAL_OK := hok
  have hd : (BMP180_ReadRegs device bus BMP180_REG_CALIB_0 22).2.1 = b := by
    funext i; exact (hb i).symm
  unfold BMP180_Read_Calibration_Data
  simp only []
  rw [if_neg (by simp [hs]), hd]
  refine ⟨hs, ?_⟩
  show calibLoop b device.calibration_data = _
  simp only [calibLoop, List.range, List.range.loop, List.foldl, storeCalibSlot]
  simp only [calib_word_signed _ _ (hlt _) (hlt _), calib_word_unsigned _ _ (hlt _) (hlt _)]

/-- The datasheet calibration block loads as the datasheet coefficients. -/
theorem readCalibration_fields_witness :
    (BMP180_Read_Calibration_Data (blankDevice bigCal) dsCalibBus).1 = HAL_OK ∧
    (BMP180_Read_Calibration_Data (blankDevice bigCal) dsCalibBus).2.1.calibration_data
      = dsCal :=
  have h := readCalibration_fields (blankDevice bigCal) dsCalibBus
    (dsCalibBus.respond dsCalibBus.trace
      (BusOp.MemRead (blankDevice bigCal).hi2c BMP180_I2C_ADDR BMP180_REG_CALIB_0 22)).byte
    (by decide) (fun _ => rfl)
  ⟨h.1, h.2.trans (by decide)⟩

/-! ## C4 -/

/-- C4: when the identity read succeeds with a byte other than 0x55,
`BMP180_Init` returns 3, the only operation it performs on the bus is the single
one-byte read of the identity register (so no 22-byte calibration read and no
second identity read), and the calibration fields are as before. -/
theorem init_unexpected_identity (device : BMP180) (bus : Bus) (hi2c : Nat)
    (hok : (bus.respond bus.trace
      (BusOp.MemRead hi2c BMP180_I2C_ADDR BMP180_REG_ID 1)).status = HAL_OK)
    (hid : (bus.respond bus.trace
      (BusOp.MemRead hi2c BMP180_I2C_ADDR BMP180_REG_ID 1)).byte 0 ≠ 0x55) :
    (BMP180_Init device bus hi2c).1 = 3 ∧
    (BMP180_Init device bus hi2c).2.2.trace =
      bus.trace ++ [BusOp.MemRead hi2c BMP180_I2C_ADDR BMP180_REG_ID 1] ∧
    (BMP180_Init device bus hi2c).2.1.calibration_data = device.calibration_data := by
  unfold BMP180_Init
  simp only [BMP180_ReadReg, Bus.exec, hok, BMP180_DEVICE_ID]
  simp [hid]

/-- An identity byte of 0x56 makes initialisation fail with code 3 after one
bus operation. -/
theorem init_unexpected_identity_witness :
    (BMP180_Init (blankDevice dsCal) wrongIdBus 7).1 = 3 ∧
    (BMP180_Init (blankDevice dsCal) wrongIdBus 7).2.2.trace =
      [BusOp.MemRead 7 0xEE 0xD0 1] ∧
    (BMP180_Init (blankDevice dsCal) wrongIdBus 7).2.1.calibration_data = dsCal :=
  init_unexpected_identity (blankDevice dsCal) wrongIdBus 7 (by decide) (by decide)

/-! ## C5 -/

/-- C5: for every device, transport and handle, `BMP180_Init` returns 1 exactly
when the identity read succeeds with the byte 0x55 and the calibration read
that follows succeeds, 2 exactly when the identity read fails, 3 exactly when
the identity read succeeds with another byte, and 4 exactly when the identity
read succeeds with 0x55 and the calibration read fails. -/
theorem init_result_codes (device : BMP180) (bus : Bus) (hi2c : Nat) :
    ((BMP180_Init device bus hi2c).1 = 1 ↔
      ((bus.respond bus.trace
          (BusOp.MemRead hi2c BMP180_I2C_ADDR BMP180_REG_ID 1)).status = HAL_OK ∧
        (bus.respond bus.trace
          (BusOp.MemRead hi2c BMP180_I2C_ADDR BMP180_REG_ID 1)).byte 0 = 0x55 ∧
        (bus.respond (bus.trace ++ [BusOp.MemRead hi2c BMP180_I2C_ADDR BMP180_REG_ID 1])
          (BusOp.MemRead hi2c BMP180_I2C_ADDR BMP180_REG_CALIB_0 22)).status = HAL_OK)) ∧
    ((BMP180_Init device bus hi2c).1 = 2 ↔
      (bus.respond bus.trace
          (BusOp.MemRead hi2c BMP180_I2C_ADDR BMP180_REG_ID 1)).status ≠ HAL_OK) ∧
    ((BMP180_Init device bus hi2c).1 = 3 ↔
      ((bus.respond bus.trace
          (BusOp.MemRead hi2c BMP180_I2C_ADDR BMP180_REG_ID 1)).status = HAL_OK ∧
        (bus.respond bus.trace
          (BusOp.MemRead hi2c BMP180_I2C_ADDR BMP180_REG_ID 1)).byte 0 ≠ 0x55)) ∧
    ((BMP180_Init device bus hi2c).1 = 4 ↔
      ((bus.respond bus.trace
          (BusOp.MemRead hi2c BMP180_I2C_ADDR BMP180_REG_ID 1)).status = HAL_OK ∧
        (bus.respond bus.trace
          (BusOp.MemRead hi2c BMP180_I2C_ADDR BMP180_REG_ID 1)).byte 0 = 0x55 ∧
        (bus.respond (bus.trace ++ [BusOp.MemRead hi2c BMP180_I2C_ADDR BMP180_REG_ID 1])
          (BusOp.MemRead hi2c BMP180_I2C_ADDR BMP180_REG_CALIB_0 22)).status ≠ HAL_OK)) := by
  unfold BMP180_Init BMP180_Read_Calibration_Data
  simp only [BMP180_ReadReg, BMP180_ReadRegs, Bus.exec, BMP180_DEVICE_ID]
  by_cases h1 : (bus.respond bus.trace
      (BusOp.MemRead hi2c BMP180_I2C_ADDR BMP180_REG_ID 1)).status = HAL_OK
  · by_cases h2 : (bus.respond bus.trace
        (BusOp.MemRead hi2c BMP180_I2C_ADDR BMP180_REG_ID 1)).byte 0 = 0x55
    · by_cases h3 : (bus.respond
          (bus.trace ++ [BusOp.MemRead hi2c BMP180_I2C_ADDR BMP180_REG_ID 1])
          (BusOp.MemRead hi2c BMP180_I2C_ADDR BMP180_REG_CALIB_0 22)).status = HAL_OK
      · simp [h1, h2, h3]
      · simp [h1, h2, h3]
    · simp [h1, h2]
  · simp [h1]

/-! ## C6 -/

/-- C6 (the code differs): the status `BMP180_ReadPressure` returns is the
never-assigned local, whatever the transport does.  When the temperature pass
fails with `HAL_ERROR`, or the raw-pressure pass with `HAL_TIMEOUT`, a stack
slot holding `HAL_OK` makes the call return `HAL_OK`; when every operation
succeeds, a stack slot holding `HAL_ERROR` makes it return `HAL_ERROR`. -/
theorem readPressure_status_unrelated :
    (∀ (status : HAL_StatusTypeDef) (device : BMP180) (bus : Bus)
        (control_register : CONTROL_REGISTER),
      (BMP180_ReadPressure status device bus control_register).1 = status) ∧
    ((BMP180_ReadTemp staleDevice tempFailBus).1 = HAL_ERROR ∧
      (BMP180_ReadPressure HAL_OK staleDevice tempFailBus CTRL_REG_PRESSURE_OSS_0).1
        = HAL_OK) ∧
    ((BMP180_ReadTemp staleDevice pressureFailBus).1 = HAL_OK ∧
      (BMP180_ReadRawPressure (BMP180_ReadTemp staleDevice pressureFailBus).2.1
        (BMP180_ReadTemp staleDevice pressureFailBus).2.2 CTRL_REG_PRESSURE_OSS_0).1
        = HAL_TIMEOUT ∧
      (BMP180_ReadPressure HAL_OK staleDevice pressureFailBus CTRL_REG_PRESSURE_OSS_0).1
        = HAL_OK) ∧
    ((BMP180_ReadTemp staleDevice dsPressureBus).1 = HAL_OK ∧
      (BMP180_ReadRawPressure (BMP180_ReadTemp staleDevice dsPressureBus).2.1
        (BMP180_ReadTemp staleDevice dsPressureBus).2.2 CTRL_REG_PRESSURE_OSS_0).1
        = HAL_OK ∧
      (BMP180_ReadPressure HAL_ERROR staleDevice dsPressureBus CTRL_REG_PRESSURE_OSS_0).1
        = HAL_ERROR) :=
  ⟨fun _ _ _ _ => rfl, by decide, by decide, by decide⟩

/-! ## C7 -/

/-- C7 (the code differs): with a stored `B5 = 2399` and a transport on which the
temperature pass fails, `BMP180_ReadPressure` still runs the compensation on the
stored `B5` and overwrites `pressure_Pa` (101325 before, 69964 after) and
`elevation_M`. -/
theorem readPressure_uses_stale_B5 :
    (BMP180_ReadTemp staleDevice tempFailBus).1 = HAL_ERROR ∧
    (BMP180_ReadTemp staleDevice tempFailBus).2.1.B5 = 2399 ∧
    staleDevice.pressure_Pa = 101325 ∧
    (BMP180_ReadPressure HAL_OK staleDevice tempFailBus CTRL_REG_PRESSURE_OSS_0).2.1.pressure_Pa
      = 69964 ∧
    (BMP180_ReadPressure HAL_OK staleDevice tempFailBus CTRL_REG_PRESSURE_OSS_0).2.1.pressure_Pa
      = toU32 (pressureCompensation dsCal staleDevice.B5 23843 0) ∧
    staleDevice.elevation_M = FloatVal.elev 101325 ∧
    (BMP180_ReadPressure HAL_OK staleDevice tempFailBus CTRL_REG_PRESSURE_OSS_0).2.1.elevation_M
      = FloatVal.elev 69964 := by
  decide

/-! ## C8 -/

/-- C8 (the code differs): when the write of the start-conversion command fails
with `HAL_ERROR` and the later reads succeed, `BMP180_ReadRawTemp` and
`BMP180_ReadRawPressure` return `HAL_OK`, go on to read the output registers
and store a raw code. -/
theorem rawRead_ignores_write_failure :
    ((BMP180_SET_CTRL_MEAS (blankDevice dsCal) writeFailBus CTRL_REG_TEMPERATURE).1
        = HAL_ERROR ∧
      (BMP180_ReadRawTemp (blankDevice dsCal) writeFailBus).1 = HAL_OK ∧
      (BMP180_ReadRawTemp (blankDevice dsCal) writeFailBus).2.2.trace =
        [BusOp.MemWrite 1 0xEE 0xF4 0x2E, BusOp.Delay 5,
         BusOp.MemRead 1 0xEE 0xF6 1, BusOp.MemRead 1 0xEE 0xF7 1] ∧
      (blankDevice dsCal).raw_temperature = 0 ∧
      (BMP180_ReadRawTemp (blankDevice dsCal) writeFailBus).2.1.raw_temperature = 27898) ∧
    ((BMP180_SET_CTRL_MEAS (blankDevice dsCal) writeFailBus CTRL_REG_PRESSURE_OSS_0).1
        = HAL_ERROR ∧
      (BMP180_ReadRawPressure (blankDevice dsCal) writeFailBus CTRL_REG_PRESSURE_OSS_0).1
        = HAL_OK ∧
      (BMP180_ReadRawPressure (blankDevice dsCal) writeFailBus
          CTRL_REG_PRESSURE_OSS_0).2.2.trace =
        [BusOp.MemWrite 1 0xEE 0xF4 0x34, BusOp.Delay 5,
         BusOp.MemRead 1 0xEE 0xF6 1, BusOp.MemRead 1 0xEE 0xF7 1,
         BusOp.MemRead 1 0xEE 0xF8 1] ∧
      (blankDevice dsCal).raw_pressure = 0 ∧
      (BMP180_ReadRawPressure (blankDevice dsCal) writeFailBus
          CTRL_REG_PRESSURE_OSS_0).2.1.raw_pressure = 27898) := by
  decide

/-! ## C9 -/

/-- C9: for every oversampling level `k ≤ 3` and a transport on which every
operation succeeds, `BMP180_ReadPressure` performs exactly: write 0x2E to 0xF4,
wait 5 ms, read 0xF6, read 0xF7, write the level-`k` command byte to 0xF4, wait
the level-`k` delay, read 0xF6, 0xF7, 0xF8; the command byte and delay are
(0x34, 5), (0x74, 8), (0xB4, 14), (0xF4, 26). -/
theorem readPressure_bus_sequence (status : HAL_StatusTypeDef) (device : BMP180) (bus : Bus)
    (k : Nat) (hk : k ≤ 3)
    (hall : ∀ hist op, (bus.respond hist op).status = HAL_OK) :
    (BMP180_ReadPressure status device bus (pressureCommand k)).2.2.trace =
      bus.trace ++
        [BusOp.MemWrite device.hi2c 0xEE 0xF4 0x2E, BusOp.Delay 5,
         BusOp.MemRead device.hi2c 0xEE 0xF6 1, BusOp.MemRead device.hi2c 0xEE 0xF7 1,
         BusOp.MemWrite device.hi2c 0xEE 0xF4 (refCommandByte k),
         BusOp.Delay (refSettlingDelay k),
         BusOp.MemRead device.hi2c 0xEE 0xF6 1, BusOp.MemRead device.hi2c 0xEE 0xF7 1,
         BusOp.MemRead device.hi2c 0xEE 0xF8 1] ∧
    (refCommandByte 0, refSettlingDelay 0) = (0x34, 5) ∧
    (refCommandByte 1, refSettlingDelay 1) = (0x74, 8) ∧
    (refCommandByte 2, refSettlingDelay 2) = (0xB4, 14) ∧
    (refCommandByte 3, refSettlingDelay 3) = (0xF4, 26) := by
  refine ⟨?_, rfl, rfl, rfl, rfl⟩
  interval_cases k <;>
    simp [BMP180_ReadPressure, BMP180_ReadTemp, BMP180_ReadRawTemp, BMP180_ReadRawPressure,
      BMP180_SET_CTRL_MEAS, BMP180_WriteReg, BMP180_ReadReg, HAL_Delay, Bus.exec, selectOSS,
      pressureCommand, refCommandByte, refSettlingDelay, CONTROL_REGISTER.val, hall,
      BMP180_I2C_ADDR, BMP180_REG_CTRL_MEAS, BMP180_REG_OUT_MSB, BMP180_REG_OUT_LSB,
      BMP180_REG_OUT_XLSB]

/-- At level 2 on an always-succeeding transport the byte 0xB4 is written and
14 ms elapse before the output registers are read. -/
theorem readPressure_bus_sequence_witness :
    (BMP180_ReadPressure HAL_OK (blankDevice dsCal) okBus CTRL_REG_PRESSURE_OSS_2).2.2.trace =
      [BusOp.MemWrite 1 0xEE 0xF4 0x2E, BusOp.Delay 5,
       BusOp.MemRead 1 0xEE 0xF6 1, BusOp.MemRead 1 0xEE 0xF7 1,
       BusOp.MemWrite 1 0xEE 0xF4 0xB4, BusOp.Delay 14,
       BusOp.MemRead 1 0xEE 0xF6 1, BusOp.MemRead 1 0xEE 0xF7 1,
       BusOp.MemRead 1 0xEE 0xF8 1] :=
  (readPressure_bus_sequence HAL_OK (blankDevice dsCal) okBus 2 (by decide)
    (fun _ _ => rfl)).1

theorem byte_triple (a b c : Nat) (hb : b < 256) (hc : c < 256) :
    (a <<< 16) ||| (b <<< 8) ||| c = a * 65536 + b * 256 + c := by
  have h1 : (a <<< 16) ||| (b <<< 8) = 2 ^ 16 * a + b <<< 8 := by
    rw [Nat.shiftLeft_eq a 16, Nat.mul_comm a]
    refine (Nat.mul_add_lt_is_or (i := 16) ?_ a).symm
    rw [Nat.shiftLeft_eq]; omega
  have h2 : 2 ^ 16 * a + b <<< 8 = 2 ^ 8 * (a * 256 + b) := by
    rw [Nat.shiftLeft_eq]; omega
  rw [h1, h2, ← Nat.mul_add_lt_is_or (i := 8) hc]
  omega

/-! ## C10 -/

/-- C10: for every level `k ≤ 3`, when the three reads of the output registers
that follow the level-`k` command and its delay succeed with bytes `MSB`, `LSB`,
`XLSB`, `BMP180_ReadRawPressure` succeeds and stores `OSS = k` together with
`raw_pressure = (MSB * 65536 + LSB * 256 + XLSB) >> (8 - k)`, a value below
`2 ^ (16 + k)`. -/
theorem readRawPressure_stores (device : BMP180) (bus : Bus) (k : Nat) (hk : k ≤ 3)
    (MSB LSB XLSB : Nat)
    (h1 : (bus.respond
        (bus.trace ++ [BusOp.MemWrite device.hi2c 0xEE 0xF4 (refCommandByte k),
          BusOp.Delay (refSettlingDelay k)])
        (BusOp.MemRead device.hi2c 0xEE 0xF6 1)).status = HAL_OK)
    (h2 : (bus.respond
        (bus.trace ++ [BusOp.MemWrite device.hi2c 0xEE 0xF4 (refCommandByte k),
          BusOp.Delay (refSettlingDelay k), BusOp.MemRead device.hi2c 0xEE 0xF6 1])
        (BusOp.MemRead device.hi2c 0xEE 0xF7 1)).status = HAL_OK)
    (h3 : (bus.respond
        (bus.trace ++ [BusOp.MemWrite device.hi2c 0xEE 0xF4 (refCommandByte k),
          BusOp.Delay (refSettlingDelay k), BusOp.MemRead device.hi2c 0xEE 0xF6 1,
          BusOp.MemRead device.hi2c 0xEE 0xF7 1])
        (BusOp.MemRead device.hi2c 0xEE 0xF8 1)).status = HAL_OK)
    (hM : (bus.respond
        (bus.trace ++ [BusOp.MemWrite device.hi2c 0xEE 0xF4 (refCommandByte k),
          BusOp.Delay (refSettlingDelay k)])
        (BusOp.MemRead device.hi2c 0xEE 0xF6 1)).byte 0 = MSB)
    (hL : (bus.respond
        (bus.trace ++ [BusOp.MemWrite device.hi2c 0xEE 0xF4 (refCommandByte k),
          BusOp.Delay (refSettlingDelay k), BusOp.MemRead device.hi2c 0xEE 0xF6 1])
        (BusOp.MemRead device.hi2c 0xEE 0xF7 1)).byte 0 = LSB)
    (hX : (bus.respond
        (bus.trace ++ [BusOp.MemWrite device.hi2c 0xEE 0xF4 (refCommandByte k),
          BusOp.Delay (refSettlingDelay k), BusOp.MemRead device.hi2c 0xEE 0xF6 1,
          BusOp.MemRead device.hi2c 0xEE 0xF7 1])
        (BusOp.MemRead device.hi2c 0xEE 0xF8 1)).byte 0 = XLSB) :
    (BMP180_ReadRawPressure device bus (pressureCommand k)).1 = HAL_OK ∧
    (BMP180_ReadRawPressure device bus (pressureCommand k)).2.1.OSS = (k : Int) ∧
    (BMP180_ReadRawPressure device bus (pressureCommand k)).2.1.raw_pressure =
      (((MSB * 65536 + LSB * 256 + XLSB) / 2 ^ (8 - k) : Nat) : Int) ∧
    (BMP180_ReadRawPressure device bus (pressureCommand k)).2.1.raw_pressure
      < 2 ^ (16 + k) := by
  have bM : MSB < 256 := by rw [← hM]; exact byte_lt _ _
  have bL : LSB < 256 := by rw [← hL]; exact byte_lt _ _
  have bX : XLSB < 256 := by rw [← hX]; exact byte_lt _ _
  have e5 : ∀ x, sar32 x 5 = refAsr x 5 := fun x => sar32_natCast x 5
  have e6 : ∀ x, sar32 x 6 = refAsr x 6 := fun x => sar32_natCast x 6
  have e7 : ∀ x, sar32 x 7 = refAsr x 7 := fun x => sar32_natCast x 7
  have e8 : ∀ x, sar32 x 8 = refAsr x 8 := fun x => sar32_natCast x 8
  interval_cases k
  all_goals
    simp only [refCommandByte, refSettlingDelay] at h1 h2 h3 hM hL hX
    simp [BMP180_ReadRawPressure, BMP180_SET_CTRL_MEAS, BMP180_WriteReg, BMP180_ReadReg,
      HAL_Delay, Bus.exec, selectOSS, pressureCommand, CONTROL_REGISTER.val,
      BMP180_I2C_ADDR, BMP180_REG_CTRL_MEAS, BMP180_REG_OUT_MSB, BMP180_REG_OUT_LSB,
      BMP180_REG_OUT_XLSB, h1, h2, h3, hM, hL, hX, byte_triple _ _ _ bL bX,
      e5, e6, e7, e8]
    unfold toU32 refAsr
    constructor <;> omega

/-- Full-scale output bytes at level 3 give the largest 19-bit raw code. -/
theorem readRawPressure_stores_witness :
    (BMP180_ReadRawPressure (blankDevice dsCal) fullScaleBus CTRL_REG_PRESSURE_OSS_3).1
      = HAL_OK ∧
    (BMP180_ReadRawPressure (blankDevice dsCal) fullScaleBus CTRL_REG_PRESSURE_OSS_3).2.1.OSS
      = 3 ∧
    (BMP180_ReadRawPressure (blankDevice dsCal) fullScaleBus
      CTRL_REG_PRESSURE_OSS_3).2.1.raw_pressure = 524287 :=
  have h := readRawPressure_stores (blankDevice dsCal) fullScaleBus 3 (by decide) 255 255 255
    (by decide) (by decide) (by decide) (by decide) (by decide) (by decide)
  ⟨h.1, h.2.1, h.2.2.1.trans (by decide)⟩

/-! ## C11 -/

/-- C11: when the reads of 0xF6 and 0xF7 that follow the write of 0x2E to 0xF4
and the 5 ms delay succeed with bytes `MSB` and `LSB`, `BMP180_ReadRawTemp`
returns `HAL_OK`, stores `raw_temperature = MSB * 256 + LSB`, a value in
0..65535, and has performed exactly: write 0x2E to 0xF4, wait 5 ms, read 0xF6,
read 0xF7. -/
theorem readRawTemp_stores (device : BMP180) (bus : Bus) (MSB LSB : Nat)
    (h1 : (bus.respond
        (bus.trace ++ [BusOp.MemWrite device.hi2c 0xEE 0xF4 0x2E, BusOp.Delay 5])
        (BusOp.MemRead device.hi2c 0xEE 0xF6 1)).status = HAL_OK)
    (h2 : (bus.respond
        (bus.trace ++ [BusOp.MemWrite device.hi2c 0xEE 0xF4 0x2E, BusOp.Delay 5,
          BusOp.MemRead device.hi2c 0xEE 0xF6 1])
        (BusOp.MemRead device.hi2c 0xEE 0xF7 1)).status = HAL_OK)
    (hM : (bus.respond
        (bus.trace ++ [BusOp.MemWrite device.hi2c 0xEE 0xF4 0x2E, BusOp.Delay 5])
        (BusOp.MemRead device.hi2c 0xEE 0xF6 1)).byte 0 = MSB)
    (hL : (bus.respond
        (bus.trace ++ [BusOp.MemWrite device.hi2c 0xEE 0xF4 0x2E, BusOp.Delay 5,
          BusOp.MemRead device.hi2c 0xEE 0xF6 1])
        (BusOp.MemRead device.hi2c 0xEE 0xF7 1)).byte 0 = LSB) :
    (BMP180_ReadRawTemp device bus).1 = HAL_OK ∧
    (BMP180_ReadRawTemp device bus).2.1.raw_temperature = ((MSB * 256 + LSB : Nat) : Int) ∧
    0 ≤ (BMP180_ReadRawTemp device bus).2.1.raw_temperature ∧
    (BMP180_ReadRawTemp device bus).2.1.raw_temperature ≤ 65535 ∧
    (BMP180_ReadRawTemp device bus).2.2.trace =
      bus.trace ++ [BusOp.MemWrite device.hi2c 0xEE 0xF4 0x2E, BusOp.Delay 5,
        BusOp.MemRead device.hi2c 0xEE 0xF6 1, BusOp.MemRead device.hi2c 0xEE 0xF7 1] := by
  have bM : MSB < 256 := by rw [← hM]; exact byte_lt _ _
  have bL : LSB < 256 := by rw [← hL]; exact byte_lt _ _
  simp [BMP180_ReadRawTemp, BMP180_SET_CTRL_MEAS, BMP180_WriteReg, BMP180_ReadReg,
    HAL_Delay, Bus.exec, CONTROL_REGISTER.val, BMP180_I2C_ADDR, BMP180_REG_CTRL_MEAS,
    BMP180_REG_OUT_MSB, BMP180_REG_OUT_LSB, h1, h2, hM, hL, byte_pair _ _ bL]
  unfold toU16
  refine ⟨?_, ?_, ?_⟩ <;> omega

/-- The datasheet raw temperature: bytes 0x6C, 0xFA give the code 27898. -/
theorem readRawTemp_stores_witness :
    (BMP180_ReadRawTemp (blankDevice dsCal) dsTempBus).1 = HAL_OK ∧
    (BMP180_ReadRawTemp (blankDevice dsCal) dsTempBus).2.1.raw_temperature = 27898 :=
  have h := readRawTemp_stores (blankDevice dsCal) dsTempBus 0x6C 0xFA
    (by decide) (by decide) (by decide) (by decide)
  ⟨h.1, h.2.1.trans (by decide)⟩

/-! ## C12 -/

/-- C12 (amended): after `BMP180_Init`, whatever its result and whatever the
device held before, the bus handle is the one supplied and `temp_C` is `0.0f`;
`raw_temperature`, `raw_pressure`, `B5`, `OSS`, `pressure_Pa` and `elevation_M`
hold what they held before the call. -/
theorem init_readings (device : BMP180) (bus : Bus) (hi2c : Nat) :
    (BMP180_Init device bus hi2c).2.1.hi2c = hi2c ∧
    (BMP180_Init device bus hi2c).2.1.temp_C = FloatVal.zero ∧
    (BMP180_Init device bus hi2c).2.1.raw_temperature = device.raw_temperature ∧
    (BMP180_Init device bus hi2c).2.1.raw_pressure = device.raw_pressure ∧
    (BMP180_Init device bus hi2c).2.1.B5 = device.B5 ∧
    (BMP180_Init device bus hi2c).2.1.OSS = device.OSS ∧
    (BMP180_Init device bus hi2c).2.1.pressure_Pa = device.pressure_Pa ∧
    (BMP180_Init device bus hi2c).2.1.elevation_M = device.elevation_M := by
  unfold BMP180_Init BMP180_Read_Calibration_Data
  simp only []
  split_ifs <;> simp

/-- C12 as stated fails: on a device that holds `B5 = 2399`, `pressure_Pa =
101325` and an elevation from an earlier cycle, a successful `BMP180_Init`
(code 1) leaves these three as they were. -/
theorem init_readings_counterexample :
    (BMP180_Init staleDevice initOkBus 7).1 = 1 ∧
    (BMP180_Init staleDevice initOkBus 7).2.1.hi2c = 7 ∧
    (BMP180_Init staleDevice initOkBus 7).2.1.temp_C = FloatVal.zero ∧
    (BMP180_Init staleDevice initOkBus 7).2.1.B5 = 2399 ∧
    (BMP180_Init staleDevice initOkBus 7).2.1.pressure_Pa = 101325 ∧
    (BMP180_Init staleDevice initOkBus 7).2.1.elevation_M = FloatVal.elev 101325 := by
  decide

theorem readRawTemp_calibration (device : BMP180) (bus : Bus) :
    (BMP180_ReadRawTemp device bus).2.1.calibration_data = device.calibration_data := by
  unfold BMP180_ReadRawTemp
  simp only []
  split_ifs <;> rfl

theorem readRawPressure_calibration (device : BMP180) (bus : Bus)
    (control_register : CONTROL_REGISTER) :
    (BMP180_ReadRawPressure device bus control_register).2.1.calibration_data =
      device.calibration_data := by
  unfold BMP180_ReadRawPressure
  simp only []
  split_ifs <;> rfl

theorem readTemp_calibration (device : BMP180) (bus : Bus) :
    (BMP180_ReadTemp device bus).2.1.calibration_data = device.calibration_data := by
  unfold BMP180_ReadTemp
  simp only []
  split_ifs
  · exact readRawTemp_calibration device bus
  · exact readRawTemp_calibration device bus

/-! ## C13 -/

/-- C13: for every device, transport, command and stack value, none of
`BMP180_ReadRawTemp`, `BMP180_ReadRawPressure`, `BMP180_ReadTemp` and
`BMP180_ReadPressure` changes the calibration structure, and
`BMP180_Read_Calibration_Data` leaves it unchanged when its 22-byte read fails.
`BMP180_SET_CTRL_MEAS` only reads the handle of the device and returns no
device at all. -/
theorem calibration_immutable (device : BMP180) (bus : Bus)
    (control_register : CONTROL_REGISTER) (status : HAL_StatusTypeDef) :
    (BMP180_ReadRawTemp device bus).2.1.calibration_data = device.calibration_data ∧
    (BMP180_ReadRawPressure device bus control_register).2.1.calibration_data =
      device.calibration_data ∧
    (BMP180_ReadTemp device bus).2.1.calibration_data = device.calibration_data ∧
    (BMP180_ReadPressure status device bus control_register).2.1.calibration_data =
      device.calibration_data ∧
    ((bus.respond bus.trace
        (BusOp.MemRead device.hi2c BMP180_I2C_ADDR BMP180_REG_CALIB_0 22)).status ≠ HAL_OK →
      (BMP180_Read_Calibration_Data device bus).1 ≠ HAL_OK ∧
      (BMP180_Read_Calibration_Data device bus).2.1.calibration_data =
        device.calibration_data) := by
  refine ⟨readRawTemp_calibration device bus,
    readRawPressure_calibration device bus control_register,
    readTemp_calibration device bus, ?_, ?_⟩
  · show (BMP180_ReadRawPressure (BMP180_ReadTemp device bus).2.1
      (BMP180_ReadTemp device bus).2.2 control_register).2.1.calibration_data = _
    rw [readRawPressure_calibration, readTemp_calibration]
  · intro h
    have hs : (BMP180_ReadRegs device bus BMP180_REG_CALIB_0 22).1 ≠ HAL_OK := h
    unfold BMP180_Read_Calibration_Data
    simp only []
    rw [if_pos hs]
    exact ⟨hs, rfl⟩

/-- A failed calibration read leaves the datasheet coefficients in place, and a
full pressure cycle does not touch them either. -/
theorem calibration_immutable_witness :
    (BMP180_ReadPressure HAL_OK (blankDevice dsCal) dsPressureBus
      CTRL_REG_PRESSURE_OSS_0).2.1.calibration_data = dsCal ∧
    (BMP180_Read_Calibration_Data (blankDevice dsCal) firstFailBus).1 ≠ HAL_OK ∧
    (BMP180_Read_Calibration_Data (blankDevice dsCal) firstFailBus).2.1.calibration_data
      = dsCal :=
  have h := calibration_immutable (blankDevice dsCal) dsPressureBus
    CTRL_REG_PRESSURE_OSS_0 HAL_OK
  have g := calibration_immutable (blankDevice dsCal) firstFailBus
    CTRL_REG_PRESSURE_OSS_0 HAL_OK
  ⟨h.2.2.2.1, g.2.2.2.2 (by decide)⟩

theorem pressureCompensation_split (cd : CALIBRATION_DATA) (B5 UP OSS : Int) :
    pressureCompensation cd B5 UP OSS =
      pressureCorrection (coarsePressure (compB7 cd B5 UP OSS) (compB4 cd B5)) := rfl

theorem tempCompensationC_eq (cd : CALIBRATION_DATA) (UT : Int) :
    tempCompensationC cd UT =
      if tempDivisor cd UT = 0 then none else some (tempCompensation cd UT) := by
  unfold tempCompensationC tempDivisor tempCompensation cDiv
  simp only [Option.bind]
  split_ifs <;> simp_all

theorem coarsePressureC_eq (B7 B4 : Int) :
    coarsePressureC B7 B4 = if B4 = 0 then none else some (coarsePressure B7 B4) := by
  unfold coarsePressureC coarsePressure cDivU
  split_ifs <;> simp_all

theorem readTemp_ok_stored (device : BMP180) (bus : Bus)
    (h : (BMP180_ReadRawTemp device bus).1 = HAL_OK) :
    (BMP180_ReadTemp device bus).1 = HAL_OK ∧
    (BMP180_ReadTemp device bus).2.1.B5 =
      (tempCompensation device.calibration_data
        (BMP180_ReadTemp device bus).2.1.raw_temperature).1 ∧
    (BMP180_ReadTemp device bus).2.1.temp_C =
      FloatVal.tenths (tempCompensation device.calibration_data
        (BMP180_ReadTemp device bus).2.1.raw_temperature).2 := by
  have hr := readRawTemp_ok device bus h
  unfold BMP180_ReadTemp
  simp only []
  rw [if_neg (by simp [h])]
  simp only [toU16_of_range hr.1 hr.2.1, and_self]
  exact ⟨h, trivial⟩

theorem readRawPressure_ok_OSS (device : BMP180) (bus : Bus) (cr : CONTROL_REGISTER)
    (hcr : cr ≠ CTRL_REG_TEMPERATURE)
    (h : (BMP180_ReadRawPressure device bus cr).1 = HAL_OK) :
    0 ≤ (BMP180_ReadRawPressure device bus cr).2.1.OSS ∧
    (BMP180_ReadRawPressure device bus cr).2.1.OSS ≤ 3 := by
  unfold BMP180_ReadRawPressure at h ⊢
  simp only [] at h ⊢
  split_ifs at h ⊢ with h1 h2 h3
  · exact absurd h h1
  · exact absurd h h2
  · exact absurd h h3
  · cases cr <;> simp [selectOSS] at hcr ⊢

theorem readTemp_status (device : BMP180) (bus : Bus) :
    (BMP180_ReadTemp device bus).1 = (BMP180_ReadRawTemp device bus).1 := by
  unfold BMP180_ReadTemp
  simp only []
  split_ifs <;> rfl

theorem readRawTemp_fail_device (device : BMP180) (bus : Bus)
    (h : (BMP180_ReadRawTemp device bus).1 ≠ HAL_OK) :
    (BMP180_ReadRawTemp device bus).2.1 = device := by
  unfold BMP180_ReadRawTemp at h ⊢
  simp only [] at h ⊢
  split_ifs at h ⊢ with h1 h2
  · rfl
  · rfl
  · exact absurd h h2

/-! ## C14 -/

/-- C14 (amended): the compensation routines have no calibration check.  A
failed `BMP180_Init` (code other than 1) leaves the calibration fields as they
were.  `BMP180_ReadTemp` returns the status of its raw read, whatever the
calibration: when it returns an error it leaves the device as it was, and when
it returns `HAL_OK` and the divisor `X1 + MD` formed from whatever the
calibration fields hold is not zero, the division of C has a result and the
stored `B5` and temperature are that result.  When `BMP180_ReadPressure` is
called with a pressure command, both inner passes succeed and neither `X1 + MD`
nor `B4` is zero, the stored oversampling setting is in 0..3, the division of C
has a result and the stored pressure and elevation are computed from it. -/
theorem compensation_without_calibration (device : BMP180) (bus : Bus) (hi2c : Nat)
    (dev : BMP180) (tr : Bus) (control_register : CONTROL_REGISTER)
    (status : HAL_StatusTypeDef) :
    ((BMP180_Init device bus hi2c).1 ≠ 1 →
      (BMP180_Init device bus hi2c).2.1.calibration_data = device.calibration_data) ∧
    (BMP180_ReadTemp dev tr).1 = (BMP180_ReadRawTemp dev tr).1 ∧
    ((BMP180_ReadTemp dev tr).1 ≠ HAL_OK → (BMP180_ReadTemp dev tr).2.1 = dev) ∧
    ((BMP180_ReadTemp dev tr).1 = HAL_OK →
      tempDivisor dev.calibration_data (BMP180_ReadTemp dev tr).2.1.raw_temperature ≠ 0 →
      tempCompensationC dev.calibration_data (BMP180_ReadTemp dev tr).2.1.raw_temperature =
        some (tempCompensation dev.calibration_data
          (BMP180_ReadTemp dev tr).2.1.raw_temperature) ∧
      (BMP180_ReadTemp dev tr).2.1.B5 =
        (tempCompensation dev.calibration_data
          (BMP180_ReadTemp dev tr).2.1.raw_temperature).1 ∧
      (BMP180_ReadTemp dev tr).2.1.temp_C =
        FloatVal.tenths (tempCompensation dev.calibration_data
          (BMP180_ReadTemp dev tr).2.1.raw_temperature).2) ∧
    (control_register ≠ CTRL_REG_TEMPERATURE →
      (BMP180_ReadTemp dev tr).1 = HAL_OK →
      tempDivisor dev.calibration_data (BMP180_ReadTemp dev tr).2.1.raw_temperature ≠ 0 →
      (BMP180_ReadRawPressure (BMP180_ReadTemp dev tr).2.1 (BMP180_ReadTemp dev tr).2.2
        control_register).1 = HAL_OK →
      compB4 dev.calibration_data (BMP180_ReadTemp dev tr).2.1.B5 ≠ 0 →
      (0 ≤ (BMP180_ReadPressure status dev tr control_register).2.1.OSS ∧
        (BMP180_ReadPressure status dev tr control_register).2.1.OSS ≤ 3) ∧
      coarsePressureC
        (compB7 dev.calibration_data (BMP180_ReadTemp dev tr).2.1.B5
          (BMP180_ReadPressure status dev tr control_register).2.1.raw_pressure
          (BMP180_ReadPressure status dev tr control_register).2.1.OSS)
        (compB4 dev.calibration_data (BMP180_ReadTemp dev tr).2.1.B5) =
        some (coarsePressure
          (compB7 dev.calibration_data (BMP180_ReadTemp dev tr).2.1.B5
            (BMP180_ReadPressure status dev tr control_register).2.1.raw_pressure
            (BMP180_ReadPressure status dev tr control_register).2.1.OSS)
          (compB4 dev.calibration_data (BMP180_ReadTemp dev tr).2.1.B5)) ∧
      (BMP180_ReadPressure status dev tr control_register).2.1.pressure_Pa =
        toU32 (pressureCorrection (coarsePressure
          (compB7 dev.calibration_data (BMP180_ReadTemp dev tr).2.1.B5
            (BMP180_ReadPressure status dev tr control_register).2.1.raw_pressure
            (BMP180_ReadPressure status dev tr control_register).2.1.OSS)
          (compB4 dev.calibration_data (BMP180_ReadTemp dev tr).2.1.B5))) ∧
      (BMP180_ReadPressure status dev tr control_register).2.1.elevation_M =
        FloatVal.elev (pressureCorrection (coarsePressure
          (compB7 dev.calibration_data (BMP180_ReadTemp dev tr).2.1.B5
            (BMP180_ReadPressure status dev tr control_register).2.1.raw_pressure
            (BMP180_ReadPressure status dev tr control_register).2.1.OSS)
          (compB4 dev.calibration_data (BMP180_ReadTemp dev tr).2.1.B5)))) := by
  refine ⟨?_, readTemp_status dev tr, ?_, ?_, ?_⟩
  · intro h
    unfold BMP180_Init BMP180_Read_Calibration_Data at h ⊢
    simp only [] at h ⊢
    split_ifs at h ⊢
    · rfl
    · rfl
    · rfl
    · exact absurd rfl h
  · intro h
    rw [readTemp_status] at h
    have hd := readRawTemp_fail_device dev tr h
    unfold BMP180_ReadTemp
    simp only []
    rw [if_pos h]
    exact hd
  · intro h hdiv
    rw [readTemp_status] at h
    have hs := readTemp_ok_stored dev tr h
    refine ⟨?_, hs.2.1, hs.2.2⟩
    rw [tempCompensationC_eq, if_neg hdiv]
  · intro hcr _ _ hraw hB4
    refine ⟨readRawPressure_ok_OSS _ _ control_register hcr hraw, ?_, rfl, rfl⟩
    rw [coarsePressureC_eq, if_neg hB4]

/-- C14 as stated fails: `BMP180_Init` fails with code 3 on a device whose
calibration fields were never loaded, and `BMP180_ReadTemp` on that device then
returns `HAL_OK` and stores `B5 = 2048` and 12.8 degrees, and
`BMP180_ReadPressure` stores a pressure and an elevation; both divisors are
non-zero on this input. -/
theorem compensation_without_calibration_counterexample :
    (BMP180_Init (blankDevice junkCal) uncalibratedBus 1).1 = 3 ∧
    (BMP180_Init (blankDevice junkCal) uncalibratedBus 1).2.1.calibration_data = junkCal ∧
    (BMP180_ReadTemp (BMP180_Init (blankDevice junkCal) uncalibratedBus 1).2.1
      (BMP180_Init (blankDevice junkCal) uncalibratedBus 1).2.2).1 = HAL_OK ∧
    tempDivisor junkCal 27898 = 1 ∧
    (BMP180_ReadTemp (BMP180_Init (blankDevice junkCal) uncalibratedBus 1).2.1
      (BMP180_Init (blankDevice junkCal) uncalibratedBus 1).2.2).2.1.B5 = 2048 ∧
    (BMP180_ReadTemp (BMP180_Init (blankDevice junkCal) uncalibratedBus 1).2.1
      (BMP180_Init (blankDevice junkCal) uncalibratedBus 1).2.2).2.1.temp_C
      = FloatVal.tenths 128 ∧
    compB4 junkCal 2048 = 1 ∧
    (blankDevice junkCal).pressure_Pa = 0 ∧
    (BMP180_ReadPressure HAL_OK (BMP180_Init (blankDevice junkCal) uncalibratedBus 1).2.1
      (BMP180_Init (blankDevice junkCal) uncalibratedBus 1).2.2
      CTRL_REG_PRESSURE_OSS_0).2.1.pressure_Pa ≠ 0 ∧
    (BMP180_ReadPressure HAL_OK (BMP180_Init (blankDevice junkCal) uncalibratedBus 1).2.1
      (BMP180_Init (blankDevice junkCal) uncalibratedBus 1).2.2
      CTRL_REG_PRESSURE_OSS_0).2.1.elevation_M ≠ FloatVal.bits 0 := by
  decide

/-- On never-loaded calibration fields and a succeeding transport the failed
initialisation keeps the fields, the temperature pass returns `HAL_OK` with
`B5 = 2048`, and the pressure pass stores the compensated value. -/
theorem compensation_without_calibration_witness :
    (BMP180_Init (blankDevice junkCal) uncalibratedBus 1).2.1.calibration_data = junkCal ∧
    (BMP180_ReadTemp (blankDevice junkCal) dsPressureBus).2.1.B5 = 2048 ∧
    (BMP180_ReadPressure HAL_OK (blankDevice junkCal) dsPressureBus
      CTRL_REG_PRESSURE_OSS_0).2.1.pressure_Pa =
      toU32 (pressureCompensation junkCal 2048 23843 0) :=
  have h := compensation_without_calibration (blankDevice junkCal) uncalibratedBus 1
    (blankDevice junkCal) dsPressureBus CTRL_REG_PRESSURE_OSS_0 HAL_OK
  ⟨h.1 (by decide), (h.2.2.2.1 (by decide) (by decide)).2.1.trans (by decide),
    (h.2.2.2.2 (by decide) (by decide) (by decide) (by decide) (by decide)).2.2.1.trans
      (by decide)⟩

/-! ## C15 -/

/-- C15: `BMP180_ReadPressure` stores as elevation the formula of line 192
applied to the compensated pressure `p`; read over the real numbers the formula
is exactly 0 at `p = 101325` and strictly positive for every `p` with
`0 ≤ p < 101325`. -/
theorem elevation_sea_level (status : HAL_StatusTypeDef) (device : BMP180) (bus : Bus)
    (control_register : CONTROL_REGISTER) :
    (BMP180_ReadPressure status device bus control_register).2.1.elevation_M =
      FloatVal.elev (pressureCompensation device.calibration_data
        (BMP180_ReadTemp device bus).2.1.B5
        (BMP180_ReadPressure status device bus control_register).2.1.raw_pressure
        (BMP180_ReadPressure status device bus control_register).2.1.OSS) ∧
    elevationReal 101325 = 0 ∧
    (∀ p : Int, 0 ≤ p → p < 101325 → 0 < elevationReal p) := by
  refine ⟨rfl, ?_, ?_⟩
  · unfold elevationReal PRESSURE_SEA_LEVEL_PA
    norm_num
  · intro p h0 h1
    unfold elevationReal PRESSURE_SEA_LEVEL_PA
    have hp0 : (0 : ℝ) ≤ (p : ℝ) := by exact_mod_cast h0
    have hp1 : (p : ℝ) < 101325 := by exact_mod_cast h1
    have hx0 : (0 : ℝ) ≤ (p : ℝ) / ((101325 : ℕ) : ℝ) := by positivity
    have hx1 : (p : ℝ) / ((101325 : ℕ) : ℝ) < 1 := by
      rw [div_lt_one (by norm_num)]
      exact_mod_cast h1
    have hpow := Real.rpow_lt_one hx0 hx1 (by norm_num : (0 : ℝ) < 0.19029495718)
    nlinarith

/-- At the datasheet pressure of 69964 Pa the elevation is positive. -/
theorem elevation_sea_level_witness : 0 < elevationReal 69964 :=
  (elevation_sea_level HAL_OK (blankDevice dsCal) dsPressureBus
    CTRL_REG_PRESSURE_OSS_0).2.2 69964 (by decide) (by decide)

theorem readRawPressure_fail_device (device : BMP180) (bus : Bus)
    (control_register : CONTROL_REGISTER)
    (h : (BMP180_ReadRawPressure device bus control_register).1 ≠ HAL_OK) :
    (BMP180_ReadRawPressure device bus control_register).2.1 = device := by
  unfold BMP180_ReadRawPressure at h ⊢
  simp only [] at h ⊢
  split_ifs at h ⊢ with h1 h2 h3
  · rfl
  · rfl
  · rfl
  · exact absurd h h3

theorem readRawTemp_history (device : BMP180) (bus : Bus) :
    (HAL_Delay (BMP180_SET_CTRL_MEAS device bus CTRL_REG_TEMPERATURE).2 5).trace =
      tempReadHistory device bus ∧
    (HAL_Delay (BMP180_SET_CTRL_MEAS device bus CTRL_REG_TEMPERATURE).2 5).respond =
      bus.respond := by
  simp [HAL_Delay, BMP180_SET_CTRL_MEAS, BMP180_WriteReg, Bus.exec, tempReadHistory,
    CONTROL_REGISTER.val, BMP180_I2C_ADDR, BMP180_REG_CTRL_MEAS]

theorem readRawPressure_history (device : BMP180) (bus : Bus) (cr : CONTROL_REGISTER) :
    (selectOSS cr device.OSS (BMP180_SET_CTRL_MEAS device bus cr).2).2.trace =
      pressureReadHistory device bus cr ∧
    (selectOSS cr device.OSS (BMP180_SET_CTRL_MEAS device bus cr).2).2.respond =
      bus.respond := by
  cases cr <;>
    simp [selectOSS, HAL_Delay, BMP180_SET_CTRL_MEAS, BMP180_WriteReg, Bus.exec,
      pressureReadHistory, CONTROL_REGISTER.val, BMP180_I2C_ADDR, BMP180_REG_CTRL_MEAS]

/-! ## C16 -/

/-- C16: whenever `BMP180_ReadRawTemp` or `BMP180_ReadRawPressure` returns an
error the device is left exactly as it was, so `raw_temperature`, and
`raw_pressure` together with `OSS`, keep their values.  If a read of an output
register fails, the status returned is the status of the first failing read,
and that read is the last operation on the bus. -/
theorem rawRead_no_partial_commit (device : BMP180) (bus : Bus) (cr : CONTROL_REGISTER) :
    ((BMP180_ReadRawTemp device bus).1 ≠ HAL_OK →
      (BMP180_ReadRawTemp device bus).2.1 = device) ∧
    ((bus.respond (tempReadHistory device bus) (readOp device 0xF6)).status ≠ HAL_OK →
      (BMP180_ReadRawTemp device bus).1 =
        (bus.respond (tempReadHistory device bus) (readOp device 0xF6)).status ∧
      (BMP180_ReadRawTemp device bus).2.2.trace =
        tempReadHistory device bus ++ [readOp device 0xF6]) ∧
    ((bus.respond (tempReadHistory device bus) (readOp device 0xF6)).status = HAL_OK →
      (bus.respond (tempReadHistory device bus ++ [readOp device 0xF6])
        (readOp device 0xF7)).status ≠ HAL_OK →
      (BMP180_ReadRawTemp device bus).1 =
        (bus.respond (tempReadHistory device bus ++ [readOp device 0xF6])
          (readOp device 0xF7)).status ∧
      (BMP180_ReadRawTemp device bus).2.2.trace =
        tempReadHistory device bus ++ [readOp device 0xF6, readOp device 0xF7]) ∧
    ((BMP180_ReadRawPressure device bus cr).1 ≠ HAL_OK →
      (BMP180_ReadRawPressure device bus cr).2.1 = device) ∧
    ((bus.respond (pressureReadHistory device bus cr) (readOp device 0xF6)).status ≠ HAL_OK →
      (BMP180_ReadRawPressure device bus cr).1 =
        (bus.respond (pressureReadHistory device bus cr) (readOp device 0xF6)).status ∧
      (BMP180_ReadRawPressure device bus cr).2.2.trace =
        pressureReadHistory device bus cr ++ [readOp device 0xF6]) ∧
    ((bus.respond (pressureReadHistory device bus cr) (readOp device 0xF6)).status = HAL_OK →
      (bus.respond (pressureReadHistory device bus cr ++ [readOp device 0xF6])
        (readOp device 0xF7)).status ≠ HAL_OK →
      (BMP180_ReadRawPressure device bus cr).1 =
        (bus.respond (pressureReadHistory device bus cr ++ [readOp device 0xF6])
          (readOp device 0xF7)).status ∧
      (BMP180_ReadRawPressure device bus cr).2.2.trace =
        pressureReadHistory device bus cr ++ [readOp device 0xF6, readOp device 0xF7]) ∧
    ((bus.respond (pressureReadHistory device bus cr) (readOp device 0xF6)).status = HAL_OK →
      (bus.respond (pressureReadHistory device bus cr ++ [readOp device 0xF6])
        (readOp device 0xF7)).status = HAL_OK →
      (bus.respond
        (pressureReadHistory device bus cr ++ [readOp device 0xF6, readOp device 0xF7])
        (readOp device 0xF8)).status ≠ HAL_OK →
      (BMP180_ReadRawPressure device bus cr).1 =
        (bus.respond
          (pressureReadHistory device bus cr ++ [readOp device 0xF6, readOp device 0xF7])
          (readOp device 0xF8)).status ∧
      (BMP180_ReadRawPressure device bus cr).2.2.trace =
        pressureReadHistory device bus cr ++
          [readOp device 0xF6, readOp device 0xF7, readOp device 0xF8]) := by
  have ht := readRawTemp_history device bus
  have hp := readRawPressure_history device bus cr
  refine ⟨readRawTemp_fail_device device bus, ?_, ?_,
    readRawPressure_fail_device device bus cr, ?_, ?_, ?_⟩
  · intro h
    unfold BMP180_ReadRawTemp
    simp only []
    generalize HAL_Delay (BMP180_SET_CTRL_MEAS device bus CTRL_REG_TEMPERATURE).2 5 = b1
      at ht ⊢
    simp [BMP180_ReadReg, Bus.exec, ht.1, ht.2, BMP180_I2C_ADDR, BMP180_REG_OUT_MSB,
      readOp] at h ⊢
    simp [h]
  · intro h1 h2
    unfold BMP180_ReadRawTemp
    simp only []
    generalize HAL_Delay (BMP180_SET_CTRL_MEAS device bus CTRL_REG_TEMPERATURE).2 5 = b1
      at ht ⊢
    simp [BMP180_ReadReg, Bus.exec, ht.1, ht.2, BMP180_I2C_ADDR, BMP180_REG_OUT_MSB,
      BMP180_REG_OUT_LSB, readOp] at h1 h2 ⊢
    simp [h1, h2]
  · intro h
    unfold BMP180_ReadRawPressure
    simp only []
    generalize selectOSS cr device.OSS (BMP180_SET_CTRL_MEAS device bus cr).2 = s at hp ⊢
    simp [BMP180_ReadReg, Bus.exec, hp.1, hp.2, BMP180_I2C_ADDR, BMP180_REG_OUT_MSB,
      readOp] at h ⊢
    simp [h]
  · intro h1 h2
    unfold BMP180_ReadRawPressure
    simp only []
    generalize selectOSS cr device.OSS (BMP180_SET_CTRL_MEAS device bus cr).2 = s at hp ⊢
    simp [BMP180_ReadReg, Bus.exec, hp.1, hp.2, BMP180_I2C_ADDR, BMP180_REG_OUT_MSB,
      BMP180_REG_OUT_LSB, readOp] at h1 h2 ⊢
    simp [h1, h2]
  · intro h1 h2 h3
    unfold BMP180_ReadRawPressure
    simp only []
    generalize selectOSS cr device.OSS (BMP180_SET_CTRL_MEAS device bus cr).2 = s at hp ⊢
    simp [BMP180_ReadReg, Bus.exec, hp.1, hp.2, BMP180_I2C_ADDR, BMP180_REG_OUT_MSB,
      BMP180_REG_OUT_LSB, BMP180_REG_OUT_XLSB, readOp] at h1 h2 h3 ⊢
    simp [h1, h2, h3]

/-- A pressure conversion at level 3 whose XLSB read times out leaves the stored
`OSS = 0` and raw code alone and returns `HAL_TIMEOUT`; a temperature conversion
whose LSB read is busy leaves the device alone and returns `HAL_BUSY`. -/
theorem rawRead_no_partial_commit_witness :
    ((BMP180_ReadRawPressure staleDevice xlsbFailBus CTRL_REG_PRESSURE_OSS_3).1
        = HAL_TIMEOUT ∧
      (BMP180_ReadRawPressure staleDevice xlsbFailBus CTRL_REG_PRESSURE_OSS_3).2.1
        = staleDevice) ∧
    ((BMP180_ReadRawTemp staleDevice lsbFailBus).1 = HAL_BUSY ∧
      (BMP180_ReadRawTemp staleDevice lsbFailBus).2.1 = staleDevice) :=
  have hp := rawRead_no_partial_commit staleDevice xlsbFailBus CTRL_REG_PRESSURE_OSS_3
  have ht := rawRead_no_partial_commit staleDevice lsbFailBus CTRL_REG_PRESSURE_OSS_3
  ⟨⟨(hp.2.2.2.2.2.2 (by decide) (by decide) (by decide)).1.trans (by decide),
      hp.2.2.2.1 (by decide)⟩,
    ⟨(ht.2.2.1 (by decide) (by decide)).1.trans (by decide), ht.1 (by decide)⟩⟩

theorem toU32_wrap32_of_range {x : Int} (h0 : 0 ≤ x) (h1 : x < 4294967296) :
    toU32 (wrap32 x) = x := by
  unfold toU32 wrap32; omega

theorem quotient_le_half {n d : Int} (hn : 0 ≤ n) (hd : 2 ≤ d) : 2 * n / d ≤ n := by
  have h1 : 2 * n / d * d ≤ 2 * n := Int.ediv_mul_le _ (by omega)
  have h2 : 0 ≤ 2 * n / d := Int.ediv_nonneg (by omega) (by omega)
  nlinarith

/-! ## C17 -/

/-- C17 (amended): the compensation is the correction of lines 183-187 applied
to the coarse `p` of lines 178-181.  For every `B4` with `0 < B4 < 2^32` and
every unsigned 32-bit `B7`: below `0x80000000` the shift-then-divide branch is
taken and the coarse `p`, read as an unsigned 32-bit value, is the exact
quotient `2 * B7 / B4`; the `int32_t p` itself equals that quotient whenever the
quotient is below `2^31`, which holds for every `B4 ≥ 2`.  At or above
`0x80000000` the divide-then-shift branch is taken on the unsigned `B7` and `p`
is `2 * (B7 / B4)` modulo `2^32`. -/
theorem coarsePressure_branches (cd : CALIBRATION_DATA) (B5 UP OSS : Int) (B7 B4 : Int)
    (hB4 : 0 < B4) (_hB4u : B4 < 4294967296) (hB7 : 0 ≤ B7) (hB7u : B7 < 4294967296) :
    pressureCompensation cd B5 UP OSS =
      pressureCorrection (coarsePressure (compB7 cd B5 UP OSS) (compB4 cd B5)) ∧
    (B7 < 0x80000000 →
      toU32 (coarsePressure (wrap32 B7) B4) = 2 * B7 / B4 ∧
      (2 * B7 / B4 < 2147483648 → coarsePressure (wrap32 B7) B4 = 2 * B7 / B4) ∧
      (2 ≤ B4 → coarsePressure (wrap32 B7) B4 = 2 * B7 / B4)) ∧
    (0x80000000 ≤ B7 →
      toU32 (coarsePressure (wrap32 B7) B4) = 2 * (B7 / B4) % 4294967296) := by
  refine ⟨rfl, ?_, ?_⟩
  · intro hlt
    have hu : toU32 (wrap32 B7) = B7 := toU32_wrap32_of_range hB7 hB7u
    have hs : toU32 (shl32 (wrap32 B7) 1) = 2 * B7 := by
      unfold shl32 toU32 wrap32
      have : (2 : Int) ^ Int.toNat 1 = 2 := rfl
      rw [this]; omega
    have hq0 : 0 ≤ 2 * B7 / B4 := Int.ediv_nonneg (by omega) (by omega)
    have hq1 : 2 * B7 / B4 ≤ 2 * B7 := Int.ediv_le_self _ (by omega)
    have hc : coarsePressure (wrap32 B7) B4 = wrap32 (2 * B7 / B4) := by
      unfold coarsePressure
      rw [hu, if_pos hlt, hs]
    rw [hc]
    refine ⟨toU32_wrap32_of_range hq0 (by omega), ?_, ?_⟩
    · intro h
      exact wrap32_of_range (by omega) (by omega)
    · intro h2
      have := quotient_le_half hB7 h2
      exact wrap32_of_range (by omega) (by omega)
  · intro hge
    have hu : toU32 (wrap32 B7) = B7 := toU32_wrap32_of_range hB7 hB7u
    unfold coarsePressure
    rw [hu, if_neg (by omega), toU32_wrap32]
    unfold toU32
    rw [Int.mul_comm, Int.emod_emod_of_dvd _ (dvd_refl _)]

/-- With `B7 = 0x7FFFFFF0` and `B4 = 33457` the coarse pressure is the exact
quotient 128372. -/
theorem coarsePressure_branches_witness :
    coarsePressure (wrap32 0x7FFFFFF0) 33457 = 128372 ∧
    toU32 (coarsePressure (wrap32 0x80000000) 33457) = 128372 :=
  have h := coarsePressure_branches dsCal 2399 23843 0 0x7FFFFFF0 33457
    (by decide) (by decide) (by decide) (by decide)
  have g := coarsePressure_branches dsCal 2399 23843 0 0x80000000 33457
    (by decide) (by decide) (by decide) (by decide)
  ⟨((h.2.1 (by decide)).2.2 (by decide)).trans (by decide),
    (g.2.2 (by decide)).trans (by decide)⟩

/-- C17 as stated fails for `B4 = 1`: with `B7 = 0x40000000`, below the
threshold, the exact quotient is `2^31` and the `int32_t` coarse pressure is
`-2^31`.  The case is reached with an in-range calibration: `AC4 = 1`, `B5 =
2400` and the raw code 42950 at oversampling 0 give `B4 = 1`, `B7 = 2126400000`
and the coarse pressure -42167296 where the quotient is 4252800000. -/
theorem coarsePressure_branches_counterexample :
    ((1073741824 : Int) < 0x80000000 ∧
      coarsePressure (wrap32 1073741824) 1 = -2147483648 ∧
      (2 * 1073741824 / 1 : Int) = 2147483648) ∧
    (compB4 smallAC4Cal 2400 = 1 ∧
      toU32 (compB7 smallAC4Cal 2400 42950 0) = 2126400000 ∧
      coarsePressure (compB7 smallAC4Cal 2400 42950 0) (compB4 smallAC4Cal 2400)
        = -42167296 ∧
      (2 * 2126400000 / 1 : Int) = 4252800000) := by
  decide

theorem readRawTemp_of_handle (d e : BMP180) (bus : Bus) (h : d.hi2c = e.hi2c) :
    (BMP180_ReadRawTemp d bus).1 = (BMP180_ReadRawTemp e bus).1 ∧
    (BMP180_ReadRawTemp d bus).2.2 = (BMP180_ReadRawTemp e bus).2.2 := by
  unfold BMP180_ReadRawTemp
  simp only [BMP180_SET_CTRL_MEAS, BMP180_WriteReg, BMP180_ReadReg, h]
  split_ifs <;> exact ⟨rfl, rfl⟩

theorem readRawPressure_of_handle (d e : BMP180) (bus : Bus) (cr : CONTROL_REGISTER)
    (h : d.hi2c = e.hi2c) :
    (BMP180_ReadRawPressure d bus cr).1 = (BMP180_ReadRawPressure e bus cr).1 ∧
    (BMP180_ReadRawPressure d bus cr).2.2 = (BMP180_ReadRawPressure e bus cr).2.2 := by
  have hs : ∀ (o o' : Int) (b : Bus), (selectOSS cr o b).2 = (selectOSS cr o' b).2 := by
    intro o o' b
    unfold selectOSS
    split_ifs <;> rfl
  unfold BMP180_ReadRawPressure
  simp only [BMP180_SET_CTRL_MEAS, BMP180_WriteReg, BMP180_ReadReg, h, hs d.OSS e.OSS]
  split_ifs <;> exact ⟨rfl, rfl⟩

theorem readRawTemp_handle (d : BMP180) (bus : Bus) :
    (BMP180_ReadRawTemp d bus).2.1.hi2c = d.hi2c := by
  unfold BMP180_ReadRawTemp
  simp only []
  split_ifs <;> rfl

theorem readTemp_handle (d : BMP180) (bus : Bus) :
    (BMP180_ReadTemp d bus).2.1.hi2c = d.hi2c := by
  unfold BMP180_ReadTemp
  simp only []
  split_ifs
  · exact readRawTemp_handle d bus
  · exact readRawTemp_handle d bus

theorem readTemp_bus (d : BMP180) (bus : Bus) :
    (BMP180_ReadTemp d bus).2.2 = (BMP180_ReadRawTemp d bus).2.2 := by
  unfold BMP180_ReadTemp
  simp only []
  split_ifs <;> rfl

theorem readTemp_of_handle (d e : BMP180) (bus : Bus) (h : d.hi2c = e.hi2c) :
    (BMP180_ReadTemp d bus).1 = (BMP180_ReadTemp e bus).1 ∧
    (BMP180_ReadTemp d bus).2.2 = (BMP180_ReadTemp e bus).2.2 := by
  rw [readTemp_status, readTemp_status, readTemp_bus, readTemp_bus]
  exact readRawTemp_of_handle d e bus h

theorem readPressure_of_handle (status : HAL_StatusTypeDef) (d e : BMP180) (bus : Bus)
    (cr : CONTROL_REGISTER) (h : d.hi2c = e.hi2c) :
    (BMP180_ReadPressure status d bus cr).1 = (BMP180_ReadPressure status e bus cr).1 ∧
    (BMP180_ReadPressure status d bus cr).2.2 = (BMP180_ReadPressure status e bus cr).2.2 := by
  refine ⟨rfl, ?_⟩
  show (BMP180_ReadRawPressure (BMP180_ReadTemp d bus).2.1 (BMP180_ReadTemp d bus).2.2 cr).2.2
    = (BMP180_ReadRawPressure (BMP180_ReadTemp e bus).2.1 (BMP180_ReadTemp e bus).2.2 cr).2.2
  rw [(readTemp_of_handle d e bus h).2]
  exact (readRawPressure_of_handle _ _ _ cr
    (by rw [readTemp_handle, readTemp_handle]; exact h)).2

/-! ## C18 -/

/-- C18: neither routine guards its divisor.  Whenever its raw read succeeds,
`BMP180_ReadTemp` returns `HAL_OK` and stores as `B5` the sum of `X1` and the
quotient of `MC * 2048` by `X1 + MD`, for every calibration and raw code;
`BMP180_ReadPressure` always stores the correction of the coarse pressure,
which is the quotient by `B4` in either branch; and the status and the bus
operations of both routines are the same for every calibration the device may
hold, so no test of a divisor is made.  With the divisions of C the temperature
compensation has a result exactly when `X1 + MD` is not zero and the coarse
pressure exactly when `B4` is not zero, and the result is then the one the
driver computes.  A zero divisor is reached with in-range inputs: `X1 + MD = 0`
for the all-zero calibration and every raw code, and `B4 = 0` whenever
`AC4 = 0`. -/
theorem divisor_unguarded (cd : CALIBRATION_DATA) (UT B5 B7 B4 : Int)
    (device : BMP180) (bus : Bus) (control_register : CONTROL_REGISTER)
    (status : HAL_StatusTypeDef) :
    ((BMP180_ReadRawTemp device bus).1 = HAL_OK →
      (BMP180_ReadTemp device bus).1 = HAL_OK ∧
      (BMP180_ReadTemp device bus).2.1.B5 =
        wrap32 (tempX1 device.calibration_data (BMP180_ReadTemp device bus).2.1.raw_temperature
          + wrap32 (Int.tdiv (wrap32 (device.calibration_data.MC * 0x800))
              (tempDivisor device.calibration_data
                (BMP180_ReadTemp device bus).2.1.raw_temperature)))) ∧
    tempDivisor cd UT = wrap32 (tempX1 cd UT + cd.MD) ∧
    (BMP180_ReadPressure status device bus control_register).2.1.pressure_Pa =
      toU32 (pressureCorrection (coarsePressure
        (compB7 device.calibration_data (BMP180_ReadTemp device bus).2.1.B5
          (BMP180_ReadPressure status device bus control_register).2.1.raw_pressure
          (BMP180_ReadPressure status device bus control_register).2.1.OSS)
        (compB4 device.calibration_data (BMP180_ReadTemp device bus).2.1.B5))) ∧
    coarsePressure B7 B4 =
      (if toU32 B7 < 0x80000000 then wrap32 (toU32 (shl32 B7 1) / B4)
       else wrap32 (toU32 (toU32 B7 / B4 * 2))) ∧
    ((BMP180_ReadTemp { device with calibration_data := cd } bus).1 =
        (BMP180_ReadTemp device bus).1 ∧
      (BMP180_ReadTemp { device with calibration_data := cd } bus).2.2 =
        (BMP180_ReadTemp device bus).2.2 ∧
      (BMP180_ReadPressure status { device with calibration_data := cd } bus
          control_register).1 =
        (BMP180_ReadPressure status device bus control_register).1 ∧
      (BMP180_ReadPressure status { device with calibration_data := cd } bus
          control_register).2.2 =
        (BMP180_ReadPressure status device bus control_register).2.2) ∧
    (tempCompensationC cd UT = none ↔ tempDivisor cd UT = 0) ∧
    (tempDivisor cd UT ≠ 0 → tempCompensationC cd UT = some (tempCompensation cd UT)) ∧
    (coarsePressureC B7 B4 = none ↔ B4 = 0) ∧
    (B4 ≠ 0 → coarsePressureC B7 B4 = some (coarsePressure B7 B4)) ∧
    (BMP180_ReadTemp device bus).1 = (BMP180_ReadRawTemp device bus).1 ∧
    (BMP180_ReadPressure status device bus control_register).1 = status ∧
    tempDivisor zeroCal UT = 0 ∧
    (cd.AC4 = 0 → compB4 cd B5 = 0) := by
  refine ⟨?_, rfl, rfl, rfl, ?_, ?_, ?_, ?_, ?_, ?_, rfl, ?_, ?_⟩
  · intro h
    have hr := readRawTemp_ok device bus h
    unfold BMP180_ReadTemp
    simp only []
    rw [if_neg (by simp [h])]
    simp only [toU16_of_range hr.1 hr.2.1]
    exact ⟨h, rfl⟩
  · have ht := readTemp_of_handle { device with calibration_data := cd } device bus rfl
    have hp := readPressure_of_handle status { device with calibration_data := cd } device
      bus control_register rfl
    exact ⟨ht.1, ht.2, hp.1, hp.2⟩
  · rw [tempCompensationC_eq]
    split_ifs with h <;> simp [h]
  · intro h
    rw [tempCompensationC_eq, if_neg h]
  · rw [coarsePressureC_eq]
    split_ifs with h <;> simp [h]
  · intro h
    rw [coarsePressureC_eq, if_neg h]
  · unfold BMP180_ReadTemp
    simp only []
    split_ifs <;> rfl
  · unfold tempDivisor zeroCal
    simp [wrap32]
  · intro h
    unfold compB4
    simp [h, toU32]

/-- With the all-zero calibration the temperature pass meets the divisor 0,
still returns `HAL_OK` and stores a `B5`, where the division of C has no
result; with `AC4 = 0` a full pressure cycle meets `B4 = 0` and still stores a
pressure; with the datasheet calibration both divisors are non-zero and the
results are defined. -/
theorem divisor_unguarded_witness :
    ((BMP180_ReadTemp (blankDevice zeroCal) dsTempBus).1 = HAL_OK ∧
      tempDivisor zeroCal 27898 = 0 ∧
      tempCompensationC zeroCal 27898 = none ∧
      (BMP180_ReadTemp (blankDevice zeroCal) dsTempBus).2.1.B5 = 0) ∧
    (compB4 bigCal (BMP180_ReadTemp (blankDevice bigCal) dsPressureBus).2.1.B5 = 0 ∧
      (BMP180_ReadPressure HAL_OK (blankDevice bigCal) dsPressureBus
        CTRL_REG_PRESSURE_OSS_0).2.1.pressure_Pa = 236) ∧
    tempCompensationC dsCal 27898 = some (2400, 150) ∧
    coarsePressureC 1171050000 33457 = some 70003 :=
  have h := divisor_unguarded dsCal 27898 2400 1171050000 33457 (blankDevice zeroCal)
    dsTempBus CTRL_REG_PRESSURE_OSS_0 HAL_OK
  have g := divisor_unguarded bigCal 27898
    (BMP180_ReadTemp (blankDevice bigCal) dsPressureBus).2.1.B5 1171050000 0
    (blankDevice bigCal) dsPressureBus CTRL_REG_PRESSURE_OSS_0 HAL_OK
  have z := divisor_unguarded zeroCal 27898 2400 1171050000 0 (blankDevice zeroCal)
    dsTempBus CTRL_REG_PRESSURE_OSS_0 HAL_OK
  ⟨⟨(h.1 (by decide)).1, z.2.2.2.2.2.2.2.2.2.2.2.1, z.2.2.2.2.2.1.mpr z.2.2.2.2.2.2.2.2.2.2.2.1,
      (h.1 (by decide)).2.trans (by decide)⟩,
    ⟨g.2.2.2.2.2.2.2.2.2.2.2.2 (by decide), g.2.2.1.trans (by decide)⟩,
    (h.2.2.2.2.2.2.1 (by decide)).trans (by decide),
    (h.2.2.2.2.2.2.2.2.1 (by decide)).trans (by decide)⟩

theorem product_fits (d a : Int) (hd1 : -65535 ≤ d) (hd2 : d ≤ 65535)
    (ha1 : 0 ≤ a) (ha2 : a ≤ 32768) :
    -2147483648 ≤ d * a ∧ d * a ≤ 2147483647 := by
  have h1 : 0 ≤ (65535 - d) * a := mul_nonneg (by omega) ha1
  have h2 : 0 ≤ (d + 65535) * a := mul_nonneg (by omega) ha1
  constructor <;> nlinarith

/-! ## C19 -/

/-- C19: when `AC5 ≤ 32768`, for every 16-bit `UT` and `AC6` and every signed
16-bit `MC` and `MD` with `X1 + MD ≠ 0`, the intermediates `(UT - AC6) * AC5`,
`MC * 2048`, `X1 + MD`, `X1 + X2` and `B5 + 8` of the exact computation lie in
the signed 32-bit range and the 32-bit evaluation of the driver gives the exact
`B5` and `T`.  With `UT = 65535`, `AC6 = 0`, `AC5 = 65535` the product is
4294836225, outside the range, and the 32-bit evaluation differs from the exact
one. -/
theorem tempCompensation_no_overflow (cd : CALIBRATION_DATA) (UT : Int)
    (hUT : 0 ≤ UT ∧ UT ≤ 65535)
    (hAC5 : 0 ≤ cd.AC5 ∧ cd.AC5 ≤ 32768)
    (hAC6 : 0 ≤ cd.AC6 ∧ cd.AC6 ≤ 65535)
    (hMC : -32768 ≤ cd.MC ∧ cd.MC ≤ 32767)
    (hMD : -32768 ≤ cd.MD ∧ cd.MD ≤ 32767)
    (_hdiv : (refTemp cd UT).1 + cd.MD ≠ 0) :
    inInt32 ((UT - cd.AC6) * cd.AC5) ∧
    inInt32 (cd.MC * 2048) ∧
    inInt32 ((refTemp cd UT).1 + cd.MD) ∧
    inInt32 ((refTemp cd UT).1 + (refTemp cd UT).2.1) ∧
    inInt32 ((refTemp cd UT).2.2.1 + 8) ∧
    tempCompensation cd UT = ((refTemp cd UT).2.2.1, (refTemp cd UT).2.2.2) ∧
    ((65535 - bigCal.AC6) * bigCal.AC5 = 4294836225 ∧
      ¬ inInt32 ((65535 - bigCal.AC6) * bigCal.AC5) ∧
      tempCompensation bigCal 65535 ≠
        ((refTemp bigCal 65535).2.2.1, (refTemp bigCal 65535).2.2.2)) := by
  have hfit := product_fits (UT - cd.AC6) cd.AC5 (by omega) (by omega) hAC5.1 hAC5.2
  have hc := tempCompensation_exact cd UT hUT hAC6 hMC hMD hfit
  refine ⟨hfit, ?_, ?_, ?_, ?_, hc, by decide⟩
  · unfold inInt32; omega
  all_goals
    unfold refTemp inInt32
    simp only []
    have b1 := tdiv_32768_bounds ((UT - cd.AC6) * cd.AC5) hfit.1 hfit.2
    generalize Int.tdiv ((UT - cd.AC6) * cd.AC5) 32768 = X1 at b1 ⊢
    have b2 := tdiv_bounds (cd.MC * 2048) (X1 + cd.MD) 67108864 (by omega) (by omega)
    generalize Int.tdiv (cd.MC * 2048) (X1 + cd.MD) = X2 at b2 ⊢
    omega

/-- The datasheet calibration has `AC5 = 32757`: every intermediate fits and the
driver computes the exact `B5 = 2400`, `T = 150`. -/
theorem tempCompensation_no_overflow_witness :
    inInt32 ((27898 - dsCal.AC6) * dsCal.AC5) ∧ tempCompensation dsCal 27898 = (2400, 150) :=
  have h := tempCompensation_no_overflow dsCal 27898 (by decide) (by decide) (by decide)
    (by decide) (by decide) (by decide)
  ⟨h.1, h.2.2.2.2.2.1.trans (by decide)⟩

/-! ## C20 -/

/-- C20: when the command is none of the four pressure commands (the
enumeration leaves `CTRL_REG_TEMPERATURE`) and the three reads succeed with
bytes `MSB`, `LSB`, `XLSB`, `BMP180_ReadRawPressure` performs exactly: write the
command byte to 0xF4, read 0xF6, 0xF7, 0xF8, with no delay; it leaves `OSS` as
stored and stores the combined value shifted right by 8 minus the stored `OSS`
(for a stored `OSS` in 0..8, the quotient by `2 ^ (8 - OSS)`). -/
theorem readRawPressure_other_command (device : BMP180) (bus : Bus) (cr : CONTROL_REGISTER)
    (MSB LSB XLSB : Nat)
    (hcr : cr ≠ CTRL_REG_PRESSURE_OSS_0 ∧ cr ≠ CTRL_REG_PRESSURE_OSS_1 ∧
      cr ≠ CTRL_REG_PRESSURE_OSS_2 ∧ cr ≠ CTRL_REG_PRESSURE_OSS_3)
    (h1 : (bus.respond (bus.trace ++ [BusOp.MemWrite device.hi2c 0xEE 0xF4 cr.val])
        (BusOp.MemRead device.hi2c 0xEE 0xF6 1)).status = HAL_OK)
    (h2 : (bus.respond (bus.trace ++ [BusOp.MemWrite device.hi2c 0xEE 0xF4 cr.val,
          BusOp.MemRead device.hi2c 0xEE 0xF6 1])
        (BusOp.MemRead device.hi2c 0xEE 0xF7 1)).status = HAL_OK)
    (h3 : (bus.respond (bus.trace ++ [BusOp.MemWrite device.hi2c 0xEE 0xF4 cr.val,
          BusOp.MemRead device.hi2c 0xEE 0xF6 1, BusOp.MemRead device.hi2c 0xEE 0xF7 1])
        (BusOp.MemRead device.hi2c 0xEE 0xF8 1)).status = HAL_OK)
    (hM : (bus.respond (bus.trace ++ [BusOp.MemWrite device.hi2c 0xEE 0xF4 cr.val])
        (BusOp.MemRead device.hi2c 0xEE 0xF6 1)).byte 0 = MSB)
    (hL : (bus.respond (bus.trace ++ [BusOp.MemWrite device.hi2c 0xEE 0xF4 cr.val,
          BusOp.MemRead device.hi2c 0xEE 0xF6 1])
        (BusOp.MemRead device.hi2c 0xEE 0xF7 1)).byte 0 = LSB)
    (hX : (bus.respond (bus.trace ++ [BusOp.MemWrite device.hi2c 0xEE 0xF4 cr.val,
          BusOp.MemRead device.hi2c 0xEE 0xF6 1, BusOp.MemRead device.hi2c 0xEE 0xF7 1])
        (BusOp.MemRead device.hi2c 0xEE 0xF8 1)).byte 0 = XLSB) :
    cr = CTRL_REG_TEMPERATURE ∧ cr.val = 0x2E ∧
    (BMP180_ReadRawPressure device bus cr).1 = HAL_OK ∧
    (BMP180_ReadRawPressure device bus cr).2.2.trace =
      bus.trace ++ [BusOp.MemWrite device.hi2c 0xEE 0xF4 cr.val,
        BusOp.MemRead device.hi2c 0xEE 0xF6 1, BusOp.MemRead device.hi2c 0xEE 0xF7 1,
        BusOp.MemRead device.hi2c 0xEE 0xF8 1] ∧
    (BMP180_ReadRawPressure device bus cr).2.1.OSS = device.OSS ∧
    (BMP180_ReadRawPressure device bus cr).2.1.raw_pressure =
      toU32 (sar32 ((MSB * 65536 + LSB * 256 + XLSB : Nat) : Int) (8 - device.OSS)) ∧
    (0 ≤ device.OSS → device.OSS ≤ 8 →
      (BMP180_ReadRawPressure device bus cr).2.1.raw_pressure =
        ((MSB * 65536 + LSB * 256 + XLSB : Nat) : Int) / 2 ^ (8 - device.OSS).toNat) := by
  have bM : MSB < 256 := by rw [← hM]; exact byte_lt _ _
  have bL : LSB < 256 := by rw [← hL]; exact byte_lt _ _
  have bX : XLSB < 256 := by rw [← hX]; exact byte_lt _ _
  have hT : cr = CTRL_REG_TEMPERATURE := by
    cases cr <;> simp_all
  subst hT
  have hraw : (BMP180_ReadRawPressure device bus CTRL_REG_TEMPERATURE).2.1.raw_pressure =
      toU32 (sar32 ((MSB * 65536 + LSB * 256 + XLSB : Nat) : Int) (8 - device.OSS)) := by
    simp only [CONTROL_REGISTER.val] at h1 h2 h3 hM hL hX
    simp [BMP180_ReadRawPressure, BMP180_SET_CTRL_MEAS, BMP180_WriteReg, BMP180_ReadReg,
      Bus.exec, selectOSS, CONTROL_REGISTER.val, BMP180_I2C_ADDR, BMP180_REG_CTRL_MEAS,
      BMP180_REG_OUT_MSB, BMP180_REG_OUT_LSB, BMP180_REG_OUT_XLSB, h1, h2, h3, hM, hL, hX,
      byte_triple _ _ _ bL bX]
  refine ⟨rfl, rfl, ?_, ?_, ?_, hraw, ?_⟩
  · simp only [CONTROL_REGISTER.val] at h1 h2 h3
    simp [BMP180_ReadRawPressure, BMP180_SET_CTRL_MEAS, BMP180_WriteReg, BMP180_ReadReg,
      Bus.exec, selectOSS, CONTROL_REGISTER.val, BMP180_I2C_ADDR, BMP180_REG_CTRL_MEAS,
      BMP180_REG_OUT_MSB, BMP180_REG_OUT_LSB, BMP180_REG_OUT_XLSB, h1, h2, h3]
  · simp only [CONTROL_REGISTER.val] at h1 h2 h3
    simp [BMP180_ReadRawPressure, BMP180_SET_CTRL_MEAS, BMP180_WriteReg, BMP180_ReadReg,
      Bus.exec, selectOSS, CONTROL_REGISTER.val, BMP180_I2C_ADDR, BMP180_REG_CTRL_MEAS,
      BMP180_REG_OUT_MSB, BMP180_REG_OUT_LSB, BMP180_REG_OUT_XLSB, h1, h2, h3]
  · simp only [CONTROL_REGISTER.val] at h1 h2 h3
    simp [BMP180_ReadRawPressure, BMP180_SET_CTRL_MEAS, BMP180_WriteReg, BMP180_ReadReg,
      Bus.exec, selectOSS, CONTROL_REGISTER.val, BMP180_I2C_ADDR, BMP180_REG_CTRL_MEAS,
      BMP180_REG_OUT_MSB, BMP180_REG_OUT_LSB, BMP180_REG_OUT_XLSB, h1, h2, h3]
  · intro _ _
    rw [hraw]
    unfold sar32 toU32
    have hs := Int.shiftRight_eq_div_pow ((MSB * 65536 + LSB * 256 + XLSB : Nat) : Int)
      (8 - device.OSS).toNat
    rw [Nat.cast_pow] at hs
    have hs2 : Int.shiftRight ((MSB * 65536 + LSB * 256 + XLSB : Nat) : Int)
        (8 - device.OSS).toNat =
        ((MSB * 65536 + LSB * 256 + XLSB : Nat) : Int) / 2 ^ (8 - device.OSS).toNat := hs
    rw [hs2]
    have hq0 : 0 ≤ ((MSB * 65536 + LSB * 256 + XLSB : Nat) : Int) / 2 ^ (8 - device.OSS).toNat :=
      Int.ediv_nonneg (by omega) (by positivity)
    have hq1 : ((MSB * 65536 + LSB * 256 + XLSB : Nat) : Int) / 2 ^ (8 - device.OSS).toNat
        ≤ ((MSB * 65536 + LSB * 256 + XLSB : Nat) : Int) :=
      Int.ediv_le_self _ (by omega)
    omega

/-- With the temperature command on a device whose stored `OSS` is 2, the bytes
0x5D, 0x23, 0x00 are shifted by 6: the raw code is 95372, `OSS` stays 2 and no
delay is on the bus. -/
theorem readRawPressure_other_command_witness :
    (BMP180_ReadRawPressure oss2Device noDelayBus CTRL_REG_TEMPERATURE).2.2.trace =
      [BusOp.MemWrite 1 0xEE 0xF4 0x2E, BusOp.MemRead 1 0xEE 0xF6 1,
        BusOp.MemRead 1 0xEE 0xF7 1, BusOp.MemRead 1 0xEE 0xF8 1] ∧
    (BMP180_ReadRawPressure oss2Device noDelayBus CTRL_REG_TEMPERATURE).2.1.OSS = 2 ∧
    (BMP180_ReadRawPressure oss2Device noDelayBus CTRL_REG_TEMPERATURE).2.1.raw_pressure
      = 95372 :=
  have h := readRawPressure_other_command oss2Device noDelayBus CTRL_REG_TEMPERATURE
    0x5D 0x23 0x00 (by decide) (by decide) (by decide) (by decide) (by decide) (by decide)
    (by decide)
  ⟨h.2.2.2.1, h.2.2.2.2.1, (h.2.2.2.2.2.2 (by decide) (by decide)).trans (by decide)⟩

end Bmp180Driver
